import Mathlib

/-!
Shallow embedding of `src/main.py` of the git-commit-heatmap tool.

Modelling conventions:
* A Python `datetime` that has been normalized with
  `dt.replace(hour=0, minute=0, second=0, microsecond=0)` carries only a
  calendar date, so it is embedded as a `Date` structure (year, month, day).
* Python `dict` / `defaultdict(int)` values are embedded as association
  lists in insertion order (`List (key × value)`); a key is present exactly
  when it occurs in the list, and `defaultdict` auto-creation on `+= 1` is
  the `incr` operation below.  Absent key means count 0.
* Functions that print are embedded as functions returning the printed
  text; `generate_html_heatmap` additionally performs a file write, so it
  returns a list of `Effect`s (prints and file writes) in order.
-/

/-- A calendar date (the `date_only` value of `main.py` line 63). -/
structure Date where
  year : Nat
  month : Nat
  day : Nat
deriving DecidableEq, Repr, Inhabited

/-- One commit record `(date_only, hour, repo_name)` as appended at
`main.py` line 65. -/
structure CommitRecord where
  date : Date
  hour : Nat
  repo_name : String
deriving DecidableEq, Repr

/-- A heatmap cell key `(date, hour)` (`main.py` line 84). -/
abbrev Cell : Type := Date × Nat

/-- The cell key of a commit record. -/
def cellOf (r : CommitRecord) : Cell := (r.date, r.hour)

/-! ### Python dict embedding (association lists in insertion order) -/

/-- The keys of a dict, in insertion order (`dict.keys()`). -/
def dictKeys {α β : Type} (d : List (α × β)) : List α := d.map Prod.fst

/-- The values of a dict, in insertion order (`dict.values()`). -/
def dictValues {α β : Type} (d : List (α × β)) : List β := d.map Prod.snd

/-- Sum of the values of an integer-valued dict (`sum(d.values())`). -/
def valuesSum {α : Type} (d : List (α × Nat)) : Nat := (dictValues d).sum

/-- `d.get(k, dflt)` / `d[k]` with an explicit default. -/
def lookupD {α β : Type} [DecidableEq α] : List (α × β) → α → β → β
  | [], _, dflt => dflt
  | (k', v) :: rest, k, dflt => if k = k' then v else lookupD rest k dflt

/-- `d[k]` as an option (`k in d` tested via `isSome`). -/
def lookupOpt {α β : Type} [DecidableEq α] : List (α × β) → α → Option β
  | [], _ => none
  | (k', v) :: rest, k => if k = k' then some v else lookupOpt rest k

/-- `defaultdict(int)` increment `d[k] += 1`: bump the entry in place if
the key is present, else append a fresh entry `(k, 1)` at the end
(Python dicts preserve insertion order). -/
def incr {α : Type} [DecidableEq α] : List (α × Nat) → α → List (α × Nat)
  | [], k => [(k, 1)]
  | (k', v) :: rest, k =>
      if k = k' then (k', v + 1) :: rest else (k', v) :: incr rest k

/-- `defaultdict(lambda: defaultdict(int))` nested increment
`d[c][s] += 1` (`main.py` line 85). -/
def incrNested {α β : Type} [DecidableEq α] [DecidableEq β] :
    List (α × List (β × Nat)) → α → β → List (α × List (β × Nat))
  | [], c, s => [(c, [(s, 1)])]
  | (c', m) :: rest, c, s =>
      if c = c' then (c', incr m s) :: rest else (c', m) :: incrNested rest c s

/-- The per-cell totals dict (`heatmap` in `main.py`). -/
abbrev Heatmap : Type := List (Cell × Nat)

/-- The per-cell per-repo breakdown dict (`repo_heatmap` in `main.py`). -/
abbrev RepoHeatmap : Type := List (Cell × List (String × Nat))

/-- The per-repo totals dict (`repo_stats` in `main.py`). -/
abbrev RepoStats : Type := List (String × Nat)

/-- One iteration of the loop body of `generate_heatmap`
(`main.py` lines 83-86). -/
def ghStep (acc : Heatmap × RepoHeatmap × RepoStats) (r : CommitRecord) :
    Heatmap × RepoHeatmap × RepoStats :=
  (incr acc.1 (cellOf r),
   incrNested acc.2.1 (cellOf r) r.repo_name,
   incr acc.2.2 r.repo_name)

/-- `generate_heatmap(commits)` (`main.py` lines 78-88): fold the loop body
over the commit list starting from three empty dicts. -/
def generate_heatmap (commits : List CommitRecord) :
    Heatmap × RepoHeatmap × RepoStats :=
  commits.foldl ghStep ([], [], [])

/-! ### Scale calculator

Python computes `count <= max_count * 0.25` etc. on IEEE floats; since
`0.25`, `0.5`, `0.75` are exact binary fractions these comparisons agree
with exact rational arithmetic for every count that fits in the float
mantissa, so they are embedded over `ℚ`. -/

/-- The ANSI color chosen for a cell by the inner function `get_color` of
`print_heatmap_table` (`main.py` lines 100-110).  In the source
`get_color` closes over `max_count`; here it is an explicit argument. -/
def get_color (max_count count : Nat) : String :=
  if count = 0 then "\x1b[38;5;232m"
  else if (count : ℚ) ≤ (max_count : ℚ) * 0.25 then "\x1b[38;5;22m"
  else if (count : ℚ) ≤ (max_count : ℚ) * 0.5 then "\x1b[38;5;28m"
  else if (count : ℚ) ≤ (max_count : ℚ) * 0.75 then "\x1b[38;5;34m"
  else "\x1b[38;5;40m"

/-- The five ANSI colors of `get_color` ordered from darkest (level 0) to
brightest green (level 4). -/
def ansiColors : List String :=
  ["\x1b[38;5;232m", "\x1b[38;5;22m", "\x1b[38;5;28m",
   "\x1b[38;5;34m", "\x1b[38;5;40m"]

/-- The intensity level computed inline per body cell by
`generate_html_heatmap` (`main.py` lines 731-741). -/
def htmlLevel (max_count count : Nat) : Nat :=
  if count = 0 then 0
  else if (count : ℚ) ≤ (max_count : ℚ) * 0.25 then 1
  else if (count : ℚ) ≤ (max_count : ℚ) * 0.5 then 2
  else if (count : ℚ) ≤ (max_count : ℚ) * 0.75 then 3
  else 4

/-- Modelled from the spec: the level policy of §4.2 restated with exact
natural-number comparisons (`count <= 0.25*max` as `4*count <= max`, and
so on), to be compared with the source-side `htmlLevel`. -/
def levelOfSpec (count max_count : Nat) : Nat :=
  if count = 0 then 0
  else if 4 * count ≤ max_count then 1
  else if 2 * count ≤ max_count then 2
  else if 4 * count ≤ 3 * max_count then 3
  else 4

/-! ### Formatting helpers (Python f-string field specs and `strftime`) -/

/-- A run of `n` spaces (`" " * n`). -/
def spaces (n : Nat) : String := String.mk (List.replicate n ' ')

/-- Right-align a string in a field of width `w` with spaces, as in the
f-string width field spec used by the source for dates and counts. -/
def formatRight (w : Nat) (s : String) : String :=
  spaces (w - s.length) ++ s

/-- Zero-pad a natural number to two digits (`strftime` `%m` / `%d`). -/
def pad2 (n : Nat) : String :=
  if n < 10 then "0" ++ toString n else toString n

/-- Zero-pad a natural number to four digits (`strftime` `%Y`). -/
def pad4 (n : Nat) : String :=
  if n < 10 then "000" ++ toString n
  else if n < 100 then "00" ++ toString n
  else if n < 1000 then "0" ++ toString n
  else toString n

/-- `date.strftime("%m-%d")`. -/
def fmtMD (d : Date) : String := pad2 d.month ++ "-" ++ pad2 d.day

/-- `date.strftime("%Y-%m-%d")`. -/
def fmtYMD (d : Date) : String :=
  pad4 d.year ++ "-" ++ pad2 d.month ++ "-" ++ pad2 d.day

/-- The 2-character cell body of the color terminal grid
(`main.py` lines 125-130): blank for 0, the width-2 right-aligned count
for 1-9, the
saturation marker `++` for 10 and more. -/
def cellBlock (count : Nat) : String :=
  if count = 0 then "  "
  else if count < 10 then formatRight 2 (toString count)
  else "++"

/-- Fixed-point rendering with one decimal digit of a nonnegative exact
ratio, modelling the one-decimal f-string float spec.  (Python formats the nearest
binary float; for the half-way ties float formatting may round the last
digit the other way, and no theorem below depends on that digit.) -/
def formatFixed1 (q : ℚ) : String :=
  let n : Int := round (q * 10)
  toString (n / 10) ++ "." ++ toString (n % 10)

/-- The percentage text of the per-repo summary lines
(`main.py` lines 140-141): `count / total * 100` guarded to 0 when the
total is 0, formatted with one decimal. -/
def formatPct (count total : Nat) : String :=
  formatFixed1 (if 0 < total then (count : ℚ) / (total : ℚ) * 100 else 0)

/-! ### Sorting (Python `sorted` is a stable comparison sort) -/

/-- Insert `a` into a sorted list, before the first element `b` with
`le a b`. -/
def insertBy {α : Type} (le : α → α → Bool) (a : α) : List α → List α
  | [] => [a]
  | b :: rest => if le a b then a :: b :: rest else b :: insertBy le a rest

/-- Stable insertion sort by the boolean relation `le`, modelling Python
`sorted(xs, key=...)`. -/
def sortBy {α : Type} (le : α → α → Bool) (l : List α) : List α :=
  l.foldr (insertBy le) []

/-- Lexicographic order on dates, matching Python `datetime` comparison of
the normalized (time-zeroed) values. -/
def dateLe (a b : Date) : Bool :=
  decide (a.year < b.year ∨ (a.year = b.year ∧
    (a.month < b.month ∨ (a.month = b.month ∧ a.day ≤ b.day))))

/-- `sorted(set(date for date, _ in heatmap.keys()))`
(`main.py` lines 96, 157, 195): the distinct dates of the cell keys, in
ascending order. -/
def sortedDates (hm : Heatmap) : List Date :=
  sortBy dateLe ((hm.map (fun p => p.1.1)).dedup)

/-- `max(heatmap.values())` for a nonempty dict (folded with 0, which
agrees with Python `max` on every nonempty list of naturals). -/
def maxList (l : List Nat) : Nat := l.foldl Nat.max 0

/-- `max_count = max(heatmap.values()) if heatmap else 1`
(`main.py` lines 98, 196). -/
def maxCountOf (hm : Heatmap) : Nat :=
  if hm = [] then 1 else maxList (dictValues hm)

/-- Python `max(d.items(), key=lambda x: x[1])`: the first entry with the
maximal value, in iteration (insertion) order; `none` on an empty dict
(where Python would raise, guarded in the source by `if heatmap:`). -/
def pyMaxEntry {α : Type} : List (α × Nat) → Option (α × Nat)
  | [] => none
  | p :: rest =>
      some (rest.foldl (fun best q => if best.2 < q.2 then q else best) p)

/-! ### Terminal renderers

Each `print(...)` call contributes its text plus a newline (or just the
text with `end=""`); a renderer's result is the concatenation, in order,
of everything it prints. -/

/-- The no-data notice printed by all three renderers
(`main.py` lines 93, 154, 192). -/
def noDataMsg : String := "没有数据可显示"

/-- The summary block shared verbatim by `print_heatmap_table`
(`main.py` lines 134-149) and `print_heatmap_table_plain`
(lines 172-187): total count, per-repo stats when more than one repo,
date range, day count, busiest cell. -/
def summaryText (hm : Heatmap) (repo_stats : Option RepoStats)
    (dates : List Date) : String :=
  let total_commits := valuesSum hm
  let repoBlock :=
    match repo_stats with
    | some rs =>
        if rs ≠ [] ∧ 1 < rs.length then
          "\n各仓库提交统计:\n" ++
          String.join ((sortBy (fun a b => b.2 ≤ a.2) rs).map (fun p =>
            "  " ++ p.1 ++ ": " ++ toString p.2 ++ " 次 (" ++
            formatPct p.2 total_commits ++ "%)\n"))
        else ""
    | none => ""
  let busiest :=
    if hm ≠ [] then
      match pyMaxEntry hm with
      | some (c, v) =>
          "最活跃时段: " ++ fmtYMD c.1 ++ " " ++ toString c.2 ++ "时 (" ++
          toString v ++ " 次提交)\n"
      | none => ""
    else ""
  "\n总提交数: " ++ toString total_commits ++ "\n" ++
  repoBlock ++
  "显示日期范围: " ++ fmtYMD dates.headI ++ " 至 " ++
    fmtYMD dates.getLastI ++ "\n" ++
  "共 " ++ toString dates.length ++ " 天有提交记录\n" ++
  busiest

/-- `print_heatmap_table(heatmap, repo_stats)` (`main.py` lines 91-149),
the color terminal renderer, as the text it prints. -/
def print_heatmap_table (hm : Heatmap) (repo_stats : Option RepoStats) :
    String :=
  if hm = [] then noDataMsg ++ "\n"
  else
    let dates := sortedDates hm
    let max_count := maxCountOf hm
    let header := "\n" ++ spaces 6 ++
      String.join (dates.map (fun d => formatRight 6 (fmtMD d))) ++ "\n"
    let rows := String.join ((List.range 24).map (fun hour =>
      formatRight 2 (toString hour) ++ " " ++
      String.join (dates.map (fun d =>
        let count := lookupD hm (d, hour) 0
        get_color max_count count ++ cellBlock count ++ "\x1b[0m" ++ "  ")) ++
      "\n"))
    header ++ rows ++ summaryText hm repo_stats dates

/-- `print_heatmap_table_plain(heatmap, repo_stats)`
(`main.py` lines 152-187), the no-ANSI variant: 8-wide date header fields
and each count printed right-aligned in width 8. -/
def print_heatmap_table_plain (hm : Heatmap) (repo_stats : Option RepoStats) :
    String :=
  if hm = [] then noDataMsg ++ "\n"
  else
    let dates := sortedDates hm
    let header := "\n" ++ spaces 6 ++
      String.join (dates.map (fun d => formatRight 8 (fmtMD d))) ++ "\n"
    let rows := String.join ((List.range 24).map (fun hour =>
      formatRight 2 (toString hour) ++ " " ++
      String.join (dates.map (fun d =>
        formatRight 8 (toString (lookupD hm (d, hour) 0)))) ++
      "\n"))
    header ++ rows ++ summaryText hm repo_stats dates

/-! ### HTML renderer: year-span header and date header -/

/-- The loop state of the year-span computation of `generate_html_heatmap`
(`main.py` lines 690-700): `(current_year, year_start_idx, year_colspans)`
folded over `enumerate(dates)`.  (The `year_counts` dict of lines 685-688
is computed by the source but never used, so it is not modelled.) -/
def yearColspansAux (dates : List Date) : Option Nat × Nat × List (Nat × Nat) :=
  dates.enum.foldl (fun st p =>
    let year := p.2.year
    if some year ≠ st.1 then
      match st.1 with
      | some cy => (some year, p.1, st.2.2 ++ [(cy, p.1 - st.2.1)])
      | none => (some year, p.1, st.2.2)
    else st)
    (none, 0, [])

/-- The `year_colspans` list of `generate_html_heatmap`
(`main.py` lines 690-704): one `(year, colspan)` pair per contiguous run
of equal-year dates, closed off after the loop. -/
def yearColspans (dates : List Date) : List (Nat × Nat) :=
  match yearColspansAux dates with
  | (some cy, start, acc) => acc ++ [(cy, dates.length - start)]
  | (none, _, acc) => acc

/-- The year-span header cells emitted at `main.py` lines 706-707. -/
def yearHeaderCells (dates : List Date) : String :=
  String.join ((yearColspans dates).map (fun p =>
    "                            <th class=\"year-header\" colspan=\"" ++
    toString p.2 ++ "\"><span class=\"year-text\">" ++ toString p.1 ++
    "</span></th>\n"))

/-- The `is_year_boundary` flags of the date header loop
(`main.py` lines 714-721): `prev_year is not None and
current_year != prev_year`, carrying `prev_year` along the dates. -/
def dateHeaderFlagsAux : Option Nat → List Date → List Bool
  | _, [] => []
  | prev, d :: rest =>
      (match prev with
       | none => false
       | some py => decide (d.year ≠ py)) :: dateHeaderFlagsAux (some d.year) rest

/-- The boundary flag of each date header cell, in column order. -/
def dateHeaderFlags (dates : List Date) : List Bool :=
  dateHeaderFlagsAux none dates

/-- The date header cells emitted at `main.py` lines 714-721: `MM-DD`
with ` class="date-header"` exactly on boundary columns. -/
def dateHeaderCells (dates : List Date) : String :=
  String.join ((dates.zip (dateHeaderFlags dates)).map (fun p =>
    "                            <th" ++
    (if p.2 then " class=\"date-header\"" else "") ++ ">" ++ fmtMD p.1 ++
    "</th>\n"))

/-! ### HTML renderer: body cells, tooltips, stats -/

/-- Python `sorted(repo_details.items())` (`main.py` line 748):
lexicographic on the pairs; repo names within one cell are distinct, so
this is a sort by name. -/
def sortByRepoName (m : List (String × Nat)) : List (String × Nat) :=
  sortBy (fun a b => a.1 ≤ b.1) m

/-- The tooltip fragment of one body cell (`main.py` lines 745-752).
The source guard `repo_heatmap and (date, hour) in repo_heatmap` holds
exactly when `repo_heatmap` is passed and the key is present (a present
key already implies a nonempty dict). -/
def tooltipFor (rh : Option RepoHeatmap) (cell : Cell) (count : Nat) :
    String :=
  let base := "<div class=\"tooltip-header\">" ++ fmtYMD cell.1 ++ " " ++
    toString cell.2 ++ "时</div><div class=\"tooltip-total\">总计: " ++
    toString count ++ " 次提交</div>"
  match rh with
  | some rhm =>
      match lookupOpt rhm cell with
      | some repo_details =>
          base ++ "<div class=\"tooltip-repos\">" ++
          String.join ((sortByRepoName repo_details).map (fun p =>
            "<div class=\"tooltip-row\"><span class=\"tooltip-repo\">" ++
            p.1 ++ "</span><span class=\"tooltip-count\">" ++
            toString p.2 ++ " 次</span></div>")) ++ "</div>"
      | none => base
  | none => base

/-- The 24 body rows of the table (`main.py` lines 728-755): hour label
right-aligned in width 2, then one cell per date with its `level-N` class and
tooltip. -/
def htmlBodyRows (hm : Heatmap) (rh : Option RepoHeatmap)
    (dates : List Date) (max_count : Nat) : String :=
  String.join ((List.range 24).map (fun hour =>
    "                        <tr><td>" ++ formatRight 2 (toString hour) ++
    "</td>\n" ++
    String.join (dates.map (fun d =>
      "                            <td><div class=\"cell level-" ++
      toString (htmlLevel max_count (lookupD hm (d, hour) 0)) ++
      "\"><div class=\"tooltip\">" ++
      tooltipFor rh (d, hour) (lookupD hm (d, hour) 0) ++
      "</div></div></td>\n")) ++
    "                        </tr>\n"))

/-- The stats block of the HTML document (`main.py` lines 765-781). -/
def statsHtml (hm : Heatmap) (repo_stats : Option RepoStats)
    (dates : List Date) : String :=
  let total_commits := valuesSum hm
  let repoBlock :=
    match repo_stats with
    | some rs =>
        if rs ≠ [] ∧ 1 < rs.length then
          "            <p>各仓库提交统计:</p><ul>\n" ++
          String.join ((sortBy (fun a b => b.2 ≤ a.2) rs).map (fun p =>
            "                <li><strong>" ++ p.1 ++ "</strong>: " ++
            toString p.2 ++ " 次 (" ++ formatPct p.2 total_commits ++
            "%)</li>\n")) ++
          "            </ul>\n"
        else ""
    | none => ""
  let busiest :=
    if hm ≠ [] then
      match pyMaxEntry hm with
      | some (c, v) =>
          "            <p>最活跃时段: <strong>" ++ fmtYMD c.1 ++ " " ++
          toString c.2 ++ "时</strong> (" ++ toString v ++ " 次提交)</p>\n"
      | none => ""
    else ""
  "            <p>总提交数: <strong>" ++ toString total_commits ++
    "</strong></p>\n" ++
  repoBlock ++
  "            <p>显示日期范围: <strong>" ++ fmtYMD dates.headI ++
    "</strong> 至 <strong>" ++ fmtYMD dates.getLastI ++
    "</strong></p>\n" ++
  "            <p>共 <strong>" ++ toString dates.length ++
    "</strong> 天有提交记录</p>\n" ++
  busiest

/-! ### Observable effects of `generate_html_heatmap` -/

/-- An observable side effect of the HTML renderer: a `print(...)` call or
the `output_path.write_text(html)` call. -/
inductive Effect where
  | print (s : String)
  | writeFile (path : String) (content : String)
deriving DecidableEq, Repr

/-- A filesystem state: path to file content. -/
def FileSystem : Type := String → Option String

/-- Apply one effect to a filesystem state (prints leave it unchanged;
`write_text` replaces the file wholesale). -/
def applyEffect (fs : FileSystem) : Effect → FileSystem
  | .print _ => fs
  | .writeFile p c => fun q => if q = p then some c else fs q

/-- Apply a list of effects in order. -/
def applyEffects (fs : FileSystem) (es : List Effect) : FileSystem :=
  es.foldl applyEffect fs

/-- The static document head of the HTML output: the first triple-quoted block of `generate_html_heatmap` (`main.py` lines 198-682): doctype, styles, container opening, first header cell. -/
def htmlHead : String := String.join [
  "<!DOCTYPE html>\n",
  "<html lang=\"zh-CN\">\n",
  "<head>\n",
  "    <meta charset=\"UTF-8\">\n",
  "    <meta name=\"viewport\" content=\"width=device-width, initial-scale=1.0\">\n",
  "    <title>Git 提交时间网格表</title>\n",
  "    <style>\n",
  "        * \x7b\n",
  "            box-sizing: border-box;\n",
  "        \x7d\n",
  "        \n",
  "        body \x7b\n",
  "            font-family: -apple-system, BlinkMacSystemFont, \x27Segoe UI\x27, \x27Microsoft YaHei\x27, \x27Consolas\x27, \x27Monaco\x27, monospace;\n",
  "            margin: 0;\n",
  "            padding: 20px;\n",
  "            background: linear-gradient(135deg, #0d1117 0%, #161b22 100%);\n",
  "            color: #c9d1d9;\n",
  "            min-height: 100vh;\n",
  "        \x7d\n",
  "        \n",
  "        .container \x7b\n",
  "            max-width: 1400px;\n",
  "            margin: 0 auto;\n",
  "        \x7d\n",
  "        \n",
  "        h1 \x7b\n",
  "            color: #58a6ff;\n",
  "            margin: 0 0 20px 0;\n",
  "            font-size: clamp(24px, 4vw, 32px);\n",
  "            font-weight: 600;\n",
  "        \x7d\n",
  "        \n",
  "        .heatmap-wrapper \x7b\n",
  "            background-color: #161b22;\n",
  "            border-radius: 8px;\n",
  "            padding: 20px;\n",
  "            margin-bottom: 30px;\n",
  "            box-shadow: 0 4px 6px rgba(0, 0, 0, 0.3);\n",
  "        \x7d\n",
  "        \n",
  "        .heatmap \x7b\n",
  "            overflow-x: auto;\n",
  "            overflow-y: visible;\n",
  "            -webkit-overflow-scrolling: touch;\n",
  "        \x7d\n",
  "        \n",
  "        .heatmap::-webkit-scrollbar \x7b\n",
  "            height: 8px;\n",
  "        \x7d\n",
  "        \n",
  "        .heatmap::-webkit-scrollbar-track \x7b\n",
  "            background: #0d1117;\n",
  "            border-radius: 4px;\n",
  "        \x7d\n",
  "        \n",
  "        .heatmap::-webkit-scrollbar-thumb \x7b\n",
  "            background: #30363d;\n",
  "            border-radius: 4px;\n",
  "        \x7d\n",
  "        \n",
  "        .heatmap::-webkit-scrollbar-thumb:hover \x7b\n",
  "            background: #484f58;\n",
  "        \x7d\n",
  "        \n",
  "        table \x7b\n",
  "            border-collapse: collapse;\n",
  "            background-color: transparent;\n",
  "            width: 100%;\n",
  "            min-width: 600px;\n",
  "        \x7d\n",
  "        \n",
  "        thead \x7b\n",
  "            position: sticky;\n",
  "            top: 0;\n",
  "            z-index: 10;\n",
  "            background-color: #161b22;\n",
  "        \x7d\n",
  "        \n",
  "        thead tr:first-child \x7b\n",
  "            position: sticky;\n",
  "            top: 0;\n",
  "            z-index: 11;\n",
  "        \x7d\n",
  "        \n",
  "        th \x7b\n",
  "            padding: 8px 4px;\n",
  "            text-align: center;\n",
  "            color: #8b949e;\n",
  "            font-weight: 500;\n",
  "            font-size: clamp(10px, 1.2vw, 12px);\n",
  "            white-space: nowrap;\n",
  "            border-bottom: 2px solid #30363d;\n",
  "            border-right: 1px solid #21262d;\n",
  "        \x7d\n",
  "        \n",
  "        th.date-header \x7b\n",
  "            border-right: 1px solid #30363d;\n",
  "        \x7d\n",
  "        \n",
  "        th:last-child \x7b\n",
  "            border-right: none;\n",
  "        \x7d\n",
  "        \n",
  "        th:first-child \x7b\n",
  "            text-align: left;\n",
  "            padding-left: 0;\n",
  "            min-width: 35px;\n",
  "        \x7d\n",
  "        \n",
  "        th.year-header \x7b\n",
  "            background-color: #0d1117;\n",
  "            border-bottom: 1px solid #30363d;\n",
  "            border-right: 1px solid #30363d;\n",
  "            padding: 10px 0;\n",
  "            position: relative;\n",
  "            overflow: visible;\n",
  "        \x7d\n",
  "        \n",
  "        th.year-header:last-child \x7b\n",
  "            border-right: none;\n",
  "        \x7d\n",
  "        \n",
  "        th.year-header .year-text \x7b\n",
  "            font-weight: 600;\n",
  "            font-size: clamp(11px, 1.4vw, 14px);\n",
  "            color: #58a6ff;\n",
  "            white-space: nowrap;\n",
  "            position: absolute;\n",
  "            top: 50%;\n",
  "            transform: translateY(-50%);\n",
  "            pointer-events: none;\n",
  "            opacity: 0;\n",
  "            transition: opacity 0.2s;\n",
  "        \x7d\n",
  "        \n",
  "        th.year-header .year-text.visible \x7b\n",
  "            opacity: 1;\n",
  "        \x7d\n",
  "        \n",
  "        tbody tr:first-child td \x7b\n",
  "            padding-top: 8px;\n",
  "        \x7d\n",
  "        \n",
  "        td \x7b\n",
  "            padding: 3px 2px 3px 2px;\n",
  "            text-align: center;\n",
  "            vertical-align: middle;\n",
  "            border-right: 1px solid #21262d;\n",
  "            height: auto;\n",
  "            line-height: 1;\n",
  "        \x7d\n",
  "        \n",
  "        td:last-child \x7b\n",
  "            border-right: none;\n",
  "        \x7d\n",
  "        \n",
  "        tbody tr:nth-child(even) \x7b\n",
  "            background-color: #0d1117;\n",
  "        \x7d\n",
  "        \n",
  "        td:first-child \x7b\n",
  "            color: #8b949e;\n",
  "            font-weight: 500;\n",
  "            padding: 3px 6px 3px 0;\n",
  "            font-size: clamp(11px, 1.3vw, 13px);\n",
  "            position: sticky;\n",
  "            left: 0;\n",
  "            background-color: #161b22;\n",
  "            z-index: 5;\n",
  "            text-align: right;\n",
  "            vertical-align: middle;\n",
  "            line-height: 1.2;\n",
  "            width: 30px;\n",
  "            max-width: 30px;\n",
  "        \x7d\n",
  "        \n",
  "        td:first-child::after \x7b\n",
  "            content: \x27\x27;\n",
  "            position: absolute;\n",
  "            right: -1px;\n",
  "            top: 0;\n",
  "            bottom: 0;\n",
  "            width: 1px;\n",
  "            background-color: #30363d;\n",
  "            z-index: 6;\n",
  "            pointer-events: none;\n",
  "        \x7d\n",
  "        \n",
  "        tbody tr:nth-child(even) td:first-child \x7b\n",
  "            background-color: #0d1117;\n",
  "        \x7d\n",
  "        \n",
  "        tbody tr:nth-child(even) td:first-child::after \x7b\n",
  "            background-color: #30363d;\n",
  "        \x7d\n",
  "        \n",
  "        .cell \x7b\n",
  "            width: clamp(14px, 1.8vw, 20px);\n",
  "            height: clamp(14px, 1.8vw, 20px);\n",
  "            display: inline-block;\n",
  "            vertical-align: middle;\n",
  "            border-radius: 2px;\n",
  "            margin: 0 1px;\n",
  "            transition: transform 0.2s ease, box-shadow 0.2s ease;\n",
  "            cursor: pointer;\n",
  "            position: relative;\n",
  "        \x7d\n",
  "        \n",
  "        .cell:hover \x7b\n",
  "            transform: scale(1.1);\n",
  "            z-index: 10;\n",
  "        \x7d\n",
  "        \n",
  "        .tooltip \x7b\n",
  "            position: absolute;\n",
  "            background-color: #161b22;\n",
  "            color: #c9d1d9;\n",
  "            padding: 10px 12px;\n",
  "            border-radius: 6px;\n",
  "            font-size: 13px;\n",
  "            line-height: 1.5;\n",
  "            white-space: normal;\n",
  "            box-shadow: 0 4px 12px rgba(0, 0, 0, 0.5);\n",
  "            border: 1px solid #30363d;\n",
  "            z-index: 1000;\n",
  "            pointer-events: none;\n",
  "            opacity: 0;\n",
  "            visibility: hidden;\n",
  "            transition: opacity 0.2s ease, visibility 0.2s ease;\n",
  "            max-width: 320px;\n",
  "            min-width: 180px;\n",
  "            bottom: calc(100% + 8px);\n",
  "            left: 50%;\n",
  "            transform: translateX(-50%);\n",
  "        \x7d\n",
  "        \n",
  "        .tooltip-header \x7b\n",
  "            font-weight: 600;\n",
  "            color: #58a6ff;\n",
  "            margin-bottom: 6px;\n",
  "            font-size: 14px;\n",
  "        \x7d\n",
  "        \n",
  "        .tooltip-total \x7b\n",
  "            color: #8b949e;\n",
  "            margin-bottom: 8px;\n",
  "            padding-bottom: 8px;\n",
  "            border-bottom: 1px solid #21262d;\n",
  "            font-size: 12px;\n",
  "        \x7d\n",
  "        \n",
  "        .tooltip-repos \x7b\n",
  "            display: flex;\n",
  "            flex-direction: column;\n",
  "            gap: 4px;\n",
  "        \x7d\n",
  "        \n",
  "        .tooltip-row \x7b\n",
  "            display: flex;\n",
  "            justify-content: space-between;\n",
  "            align-items: center;\n",
  "            gap: 16px;\n",
  "        \x7d\n",
  "        \n",
  "        .tooltip-repo \x7b\n",
  "            color: #c9d1d9;\n",
  "            text-align: left;\n",
  "            flex: 1;\n",
  "            font-size: 13px;\n",
  "        \x7d\n",
  "        \n",
  "        .tooltip-count \x7b\n",
  "            color: #58a6ff;\n",
  "            text-align: right;\n",
  "            font-weight: 500;\n",
  "            font-size: 13px;\n",
  "            white-space: nowrap;\n",
  "        \x7d\n",
  "        \n",
  "        .tooltip::before \x7b\n",
  "            content: \x27\x27;\n",
  "            position: absolute;\n",
  "            width: 0;\n",
  "            height: 0;\n",
  "            border: 6px solid transparent;\n",
  "            border-top-color: #161b22;\n",
  "            top: 100%;\n",
  "            left: 50%;\n",
  "            transform: translateX(-50%);\n",
  "        \x7d\n",
  "        \n",
  "        .cell:hover .tooltip,\n",
  "        .cell.active .tooltip \x7b\n",
  "            opacity: 1;\n",
  "            visibility: visible;\n",
  "        \x7d\n",
  "        \n",
  "        @media (max-width: 768px) \x7b\n",
  "            .tooltip \x7b\n",
  "                font-size: 12px;\n",
  "                padding: 8px 10px;\n",
  "                max-width: 280px;\n",
  "                min-width: 160px;\n",
  "            \x7d\n",
  "            \n",
  "            .tooltip-header \x7b\n",
  "                font-size: 13px;\n",
  "            \x7d\n",
  "            \n",
  "            .tooltip-repo,\n",
  "            .tooltip-count \x7b\n",
  "                font-size: 12px;\n",
  "            \x7d\n",
  "        \x7d\n",
  "        \n",
  "        .level-0 \x7b background-color: #161b22; border: 1px solid #21262d; \x7d\n",
  "        .level-1 \x7b background-color: #0e4429; \x7d\n",
  "        .level-2 \x7b background-color: #006d32; \x7d\n",
  "        .level-3 \x7b background-color: #26a641; \x7d\n",
  "        .level-4 \x7b background-color: #39d353; \x7d\n",
  "        \n",
  "        .stats \x7b\n",
  "            background-color: #161b22;\n",
  "            border-radius: 8px;\n",
  "            padding: 24px;\n",
  "            margin-bottom: 20px;\n",
  "            box-shadow: 0 4px 6px rgba(0, 0, 0, 0.3);\n",
  "        \x7d\n",
  "        \n",
  "        .stats p \x7b\n",
  "            margin: 12px 0;\n",
  "            font-size: clamp(14px, 1.5vw, 16px);\n",
  "            line-height: 1.6;\n",
  "        \x7d\n",
  "        \n",
  "        .stats strong \x7b\n",
  "            color: #58a6ff;\n",
  "            font-weight: 600;\n",
  "        \x7d\n",
  "        \n",
  "        .stats ul \x7b\n",
  "            margin: 12px 0;\n",
  "            padding-left: 24px;\n",
  "        \x7d\n",
  "        \n",
  "        .stats li \x7b\n",
  "            margin: 8px 0;\n",
  "            font-size: clamp(14px, 1.5vw, 16px);\n",
  "        \x7d\n",
  "        \n",
  "        .legend \x7b\n",
  "            background-color: #161b22;\n",
  "            border-radius: 8px;\n",
  "            padding: 20px;\n",
  "            display: flex;\n",
  "            align-items: center;\n",
  "            gap: 16px;\n",
  "            flex-wrap: wrap;\n",
  "            box-shadow: 0 4px 6px rgba(0, 0, 0, 0.3);\n",
  "        \x7d\n",
  "        \n",
  "        .legend > span \x7b\n",
  "            font-weight: 600;\n",
  "            color: #c9d1d9;\n",
  "            font-size: clamp(14px, 1.5vw, 16px);\n",
  "        \x7d\n",
  "        \n",
  "        .legend-item \x7b\n",
  "            display: flex;\n",
  "            align-items: center;\n",
  "            gap: 8px;\n",
  "            font-size: clamp(12px, 1.3vw, 14px);\n",
  "            color: #8b949e;\n",
  "        \x7d\n",
  "        \n",
  "        @media (max-width: 768px) \x7b\n",
  "            body \x7b\n",
  "                padding: 12px;\n",
  "            \x7d\n",
  "            \n",
  "            .heatmap-wrapper \x7b\n",
  "                padding: 12px;\n",
  "            \x7d\n",
  "            \n",
  "            .stats \x7b\n",
  "                padding: 16px;\n",
  "            \x7d\n",
  "            \n",
  "            .legend \x7b\n",
  "                padding: 16px;\n",
  "                gap: 12px;\n",
  "            \x7d\n",
  "            \n",
  "            th \x7b\n",
  "                padding: 6px 3px;\n",
  "            \x7d\n",
  "            \n",
  "            td \x7b\n",
  "                padding: 2px 2px 4px 2px;\n",
  "                text-align: center;\n",
  "                vertical-align: middle;\n",
  "                border-right: 1px solid #21262d;\n",
  "                height: auto;\n",
  "                line-height: 1;\n",
  "            \x7d\n",
  "            \n",
  "            td:first-child \x7b\n",
  "                padding: 2px 4px 4px 0;\n",
  "                width: 25px;\n",
  "                max-width: 25px;\n",
  "                vertical-align: middle;\n",
  "                line-height: 1.2;\n",
  "            \x7d\n",
  "            \n",
  "            .cell \x7b\n",
  "                vertical-align: middle;\n",
  "                margin-top: -1px;\n",
  "            \x7d\n",
  "            \n",
  "            th:first-child \x7b\n",
  "                min-width: 25px;\n",
  "            \x7d\n",
  "        \x7d\n",
  "        \n",
  "        @media (max-width: 480px) \x7b\n",
  "            h1 \x7b\n",
  "                font-size: 20px;\n",
  "            \x7d\n",
  "            \n",
  "            th \x7b\n",
  "                font-size: 9px;\n",
  "                padding: 4px 2px;\n",
  "            \x7d\n",
  "            \n",
  "            td \x7b\n",
  "                padding: 2px 2px 4px 2px;\n",
  "                text-align: center;\n",
  "                vertical-align: middle;\n",
  "                border-right: 1px solid #21262d;\n",
  "                height: auto;\n",
  "                line-height: 1;\n",
  "            \x7d\n",
  "            \n",
  "            td:first-child \x7b\n",
  "                font-size: 10px;\n",
  "                padding: 2px 4px 4px 0;\n",
  "                width: 22px;\n",
  "                max-width: 22px;\n",
  "                vertical-align: middle;\n",
  "                line-height: 1.2;\n",
  "            \x7d\n",
  "            \n",
  "            .cell \x7b\n",
  "                vertical-align: middle;\n",
  "                margin-top: -1px;\n",
  "            \x7d\n",
  "            \n",
  "            th:first-child \x7b\n",
  "                min-width: 22px;\n",
  "            \x7d\n",
  "        \x7d\n",
  "        \n",
  "        @media (min-width: 1920px) \x7b\n",
  "            .container \x7b\n",
  "                max-width: 1600px;\n",
  "            \x7d\n",
  "            \n",
  "            .cell \x7b\n",
  "                width: 22px;\n",
  "                height: 22px;\n",
  "            \x7d\n",
  "        \x7d\n",
  "    </style>\n",
  "</head>\n",
  "<body>\n",
  "    <div class=\"container\">\n",
  "        <h1>Git 提交时间网格表</h1>\n",
  "        \n",
  "        <div class=\"heatmap-wrapper\">\n",
  "            <div class=\"heatmap\">\n",
  "                <table>\n",
  "                    <thead>\n",
  "                        <tr>\n",
  "                            <th class=\"year-header\"></th>\n"]

/-- The static block between the year-span row and the date row (`main.py` lines 709-712). -/
def htmlMid1 : String := String.join [
  "                        </tr>\n",
  "                        <tr>\n",
  "                            <th></th>\n"]

/-- The static block closing the header and opening the body (`main.py` lines 723-726). -/
def htmlMid2 : String := String.join [
  "                        </tr>\n",
  "                    </thead>\n",
  "                    <tbody>\n"]

/-- The static block closing the table and opening the stats section (`main.py` lines 757-763). -/
def htmlMid3 : String := String.join [
  "                    </tbody>\n",
  "                </table>\n",
  "            </div>\n",
  "        </div>\n",
  "        \n",
  "        <div class=\"stats\">\n"]

/-- The static document tail: legend and embedded client-side script (`main.py` lines 783-925); the document ends without a trailing newline. -/
def htmlTail : String := String.join [
  "        </div>\n",
  "        \n",
  "        <div class=\"legend\">\n",
  "            <span>图例:</span>\n",
  "            <div class=\"legend-item\"><div class=\"cell level-0\"></div><span>0 次</span></div>\n",
  "            <div class=\"legend-item\"><div class=\"cell level-1\"></div><span>少</span></div>\n",
  "            <div class=\"legend-item\"><div class=\"cell level-2\"></div><span>中</span></div>\n",
  "            <div class=\"legend-item\"><div class=\"cell level-3\"></div><span>多</span></div>\n",
  "            <div class=\"legend-item\"><div class=\"cell level-4\"></div><span>很多</span></div>\n",
  "        </div>\n",
  "    </div>\n",
  "    <script>\n",
  "        let rafId = null;\n",
  "        \n",
  "        function updateYearPositions() \x7b\n",
  "            if (rafId) \x7b\n",
  "                cancelAnimationFrame(rafId);\n",
  "            \x7d\n",
  "            \n",
  "            rafId = requestAnimationFrame(() => \x7b\n",
  "                const yearHeaders = document.querySelectorAll(\x27th.year-header\x27);\n",
  "                const heatmap = document.querySelector(\x27.heatmap\x27);\n",
  "                if (!heatmap) return;\n",
  "                \n",
  "                const heatmapRect = heatmap.getBoundingClientRect();\n",
  "                const viewportWidth = heatmapRect.width;\n",
  "                const viewportLeft = heatmapRect.left;\n",
  "                \n",
  "                yearHeaders.forEach(header => \x7b\n",
  "                    const text = header.querySelector(\x27.year-text\x27);\n",
  "                    if (!text) return;\n",
  "                    \n",
  "                    const headerRect = header.getBoundingClientRect();\n",
  "                    const headerLeft = headerRect.left - viewportLeft;\n",
  "                    const headerRight = headerLeft + headerRect.width;\n",
  "                    const headerWidth = headerRect.width;\n",
  "                    const textWidth = text.scrollWidth;\n",
  "                    \n",
  "                    if (headerLeft < 0 && headerRight < 0) \x7b\n",
  "                        text.classList.remove(\x27visible\x27);\n",
  "                        return;\n",
  "                    \x7d\n",
  "                    \n",
  "                    if (headerLeft > viewportWidth) \x7b\n",
  "                        text.classList.remove(\x27visible\x27);\n",
  "                        return;\n",
  "                    \x7d\n",
  "                    \n",
  "                    if (textWidth > headerWidth) \x7b\n",
  "                        text.classList.remove(\x27visible\x27);\n",
  "                        return;\n",
  "                    \x7d\n",
  "                    \n",
  "                    const visibleLeft = Math.max(0, headerLeft);\n",
  "                    const visibleRight = Math.min(viewportWidth, headerRight);\n",
  "                    const visibleWidth = visibleRight - visibleLeft;\n",
  "                    \n",
  "                    if (visibleWidth < textWidth) \x7b\n",
  "                        text.classList.remove(\x27visible\x27);\n",
  "                        return;\n",
  "                    \x7d\n",
  "                    \n",
  "                    const centerX = visibleLeft + visibleWidth / 2;\n",
  "                    const headerCenterX = headerLeft + headerWidth / 2;\n",
  "                    const offsetX = centerX - headerCenterX;\n",
  "                    \n",
  "                    text.style.left = \x2750%\x27;\n",
  "                    text.style.transform = \x60translate(calc(-50% + $\x7boffsetX\x7dpx), -50%)\x60;\n",
  "                    text.classList.add(\x27visible\x27);\n",
  "                \x7d);\n",
  "                \n",
  "                rafId = null;\n",
  "            \x7d);\n",
  "        \x7d\n",
  "        \n",
  "        const heatmap = document.querySelector(\x27.heatmap\x27);\n",
  "        if (heatmap) \x7b\n",
  "            let ticking = false;\n",
  "            const throttledUpdate = () => \x7b\n",
  "                if (!ticking) \x7b\n",
  "                    ticking = true;\n",
  "                    updateYearPositions();\n",
  "                    requestAnimationFrame(() => \x7b\n",
  "                        ticking = false;\n",
  "                    \x7d);\n",
  "                \x7d\n",
  "            \x7d;\n",
  "            \n",
  "            heatmap.addEventListener(\x27scroll\x27, throttledUpdate, \x7b passive: true \x7d);\n",
  "            window.addEventListener(\x27resize\x27, throttledUpdate);\n",
  "            updateYearPositions();\n",
  "        \x7d\n",
  "        \n",
  "        // Tooltip 处理\n",
  "        (function() \x7b\n",
  "            const cells = document.querySelectorAll(\x27.cell\x27);\n",
  "            let activeCell = null;\n",
  "            \n",
  "            function hideTooltip() \x7b\n",
  "                if (activeCell) \x7b\n",
  "                    activeCell.classList.remove(\x27active\x27);\n",
  "                    activeCell = null;\n",
  "                \x7d\n",
  "            \x7d\n",
  "            \n",
  "            cells.forEach(cell => \x7b\n",
  "                // 桌面端：鼠标悬停\n",
  "                cell.addEventListener(\x27mouseenter\x27, function() \x7b\n",
  "                    hideTooltip();\n",
  "                    this.classList.add(\x27active\x27);\n",
  "                    activeCell = this;\n",
  "                \x7d);\n",
  "                \n",
  "                cell.addEventListener(\x27mouseleave\x27, function() \x7b\n",
  "                    this.classList.remove(\x27active\x27);\n",
  "                    if (activeCell === this) \x7b\n",
  "                        activeCell = null;\n",
  "                    \x7d\n",
  "                \x7d);\n",
  "                \n",
  "                // 移动端：点击切换\n",
  "                cell.addEventListener(\x27click\x27, function(e) \x7b\n",
  "                    e.stopPropagation();\n",
  "                    if (activeCell === this) \x7b\n",
  "                        hideTooltip();\n",
  "                    \x7d else \x7b\n",
  "                        hideTooltip();\n",
  "                        this.classList.add(\x27active\x27);\n",
  "                        activeCell = this;\n",
  "                    \x7d\n",
  "                \x7d);\n",
  "            \x7d);\n",
  "            \n",
  "            // 点击其他地方关闭 tooltip\n",
  "            document.addEventListener(\x27click\x27, function(e) \x7b\n",
  "                if (!e.target.closest(\x27.cell\x27)) \x7b\n",
  "                    hideTooltip();\n",
  "                \x7d\n",
  "            \x7d);\n",
  "        \x7d)();\n",
  "    </script>\n",
  "</body>\n",
  "</html>"]

/-- `generate_html_heatmap(heatmap, output_path, repo_stats, repo_heatmap)`
(`main.py` lines 190-928) as its list of observable effects: on an empty
heatmap it only prints the no-data notice (lines 191-193); otherwise it
assembles the document and writes it to `output_path`
(line 927) and prints the confirmation line (line 928). -/
def generate_html_heatmap (hm : Heatmap) (output_path : String)
    (repo_stats : Option RepoStats) (repo_heatmap : Option RepoHeatmap) :
    List Effect :=
  if hm = [] then [Effect.print noDataMsg]
  else
    let dates := sortedDates hm
    let max_count := maxCountOf hm
    let html := htmlHead ++ yearHeaderCells dates ++ htmlMid1 ++
      dateHeaderCells dates ++ htmlMid2 ++
      htmlBodyRows hm repo_heatmap dates max_count ++ htmlMid3 ++
      statsHtml hm repo_stats dates ++ htmlTail
    [Effect.writeFile output_path html,
     Effect.print ("\nHTML 文件已生成: " ++ output_path)]

/-! ### Spec-side definitions used to state the claims -/

/-- `k in d` for a dict. -/
def containsKey {α β : Type} [DecidableEq α] (d : List (α × β)) (k : α) :
    Bool :=
  (lookupOpt d k).isSome

/-- Equality of two integer-valued dicts as key-value mappings: same key
sets and the same value at every key (insertion order disregarded). -/
def DictEquiv {α : Type} [DecidableEq α] (d₁ d₂ : List (α × Nat)) : Prop :=
  (∀ k, k ∈ dictKeys d₁ ↔ k ∈ dictKeys d₂) ∧
  (∀ k, lookupD d₁ k 0 = lookupD d₂ k 0)

/-- Equality of two nested dicts as key-value mappings: same outer key
sets and, at every outer key, inner dicts equal as mappings. -/
def NestedEquiv (d₁ d₂ : RepoHeatmap) : Prop :=
  (∀ c, c ∈ dictKeys d₁ ↔ c ∈ dictKeys d₂) ∧
  (∀ c, DictEquiv (lookupD d₁ c []) (lookupD d₂ c []))

/-- Modelled from the spec: the field-wise (per-key) sum of two partial
integer-valued dicts — §5's "final merge step (field-wise sum)"; the
source has no merge function, so this follows the spec's words.  Keys of
the first dict first, then the new keys of the second; the value at each
key is the sum of the two looked-up values. -/
def addDict {α : Type} [DecidableEq α] (d₁ d₂ : List (α × Nat)) :
    List (α × Nat) :=
  (dictKeys d₁ ++ (dictKeys d₂).filter (fun k => ! containsKey d₁ k)).map
    (fun k => (k, lookupD d₁ k 0 + lookupD d₂ k 0))

/-- Modelled from the spec: the field-wise sum of two partial nested
dicts, combining the inner dicts per outer key with `addDict`. -/
def addNested (d₁ d₂ : RepoHeatmap) : RepoHeatmap :=
  (dictKeys d₁ ++ (dictKeys d₂).filter (fun c => ! containsKey d₁ c)).map
    (fun c => (c, addDict (lookupD d₁ c []) (lookupD d₂ c [])))

/-- Modelled from the spec: the date-header separator flags as §4.4 words
them — `false` on the very first column, and on every later column the
flag says whether its year differs from the immediately preceding
column's year.  To be compared with the source-side `dateHeaderFlags`. -/
def dateHeaderFlagsSpec (dates : List Date) : List Bool :=
  match dates with
  | [] => []
  | _ :: rest =>
      false ::
        List.zipWith (fun prev cur => decide (cur.year ≠ prev.year)) dates rest

/-! ### Lemmas about the dict operations -/

theorem lookupD_incr {α : Type} [DecidableEq α] (d : List (α × Nat))
    (k k' : α) :
    lookupD (incr d k) k' 0 =
      lookupD d k' 0 + (if k' = k then 1 else 0) := by
  induction d with
  | nil =>
      by_cases h : k' = k <;> simp [incr, lookupD, h]
  | cons p rest ih =>
      obtain ⟨k'', v⟩ := p
      by_cases h1 : k = k''
      · subst h1
        by_cases h2 : k' = k <;> simp [incr, lookupD, h2]
      · by_cases h2 : k' = k''
        · subst h2
          simp [incr, lookupD, h1, Ne.symm h1]
        · simp [incr, lookupD, h1, h2, ih]

theorem mem_keys_incr {α : Type} [DecidableEq α] (d : List (α × Nat))
    (k k' : α) :
    k' ∈ dictKeys (incr d k) ↔ k' ∈ dictKeys d ∨ k' = k := by
  induction d with
  | nil => simp [incr, dictKeys]
  | cons p rest ih =>
      obtain ⟨k'', v⟩ := p
      by_cases h1 : k = k''
      · subst h1
        by_cases h2 : k' = k <;> simp [incr, dictKeys, h2]
      · simp [incr, dictKeys, h1] at ih ⊢
        tauto

theorem valuesSum_incr {α : Type} [DecidableEq α] (d : List (α × Nat))
    (k : α) :
    valuesSum (incr d k) = valuesSum d + 1 := by
  induction d with
  | nil => simp [incr, valuesSum, dictValues]
  | cons p rest ih =>
      obtain ⟨k'', v⟩ := p
      by_cases h1 : k = k''
      · simp [incr, valuesSum, dictValues, h1]
        omega
      · simp [incr, valuesSum, dictValues, h1] at ih ⊢
        omega

theorem lookupD_incrNested (d : RepoHeatmap) (c c' : Cell) (s : String) :
    lookupD (incrNested d c s) c' [] =
      if c' = c then incr (lookupD d c []) s else lookupD d c' [] := by
  induction d with
  | nil =>
      by_cases h : c' = c <;> simp [incrNested, lookupD, incr, h]
  | cons p rest ih =>
      obtain ⟨c'', m⟩ := p
      by_cases h1 : c = c''
      · subst h1
        by_cases h2 : c' = c <;> simp [incrNested, lookupD, h2]
      · by_cases h2 : c' = c''
        · subst h2
          simp [incrNested, lookupD, h1, Ne.symm h1]
        · simp [incrNested, lookupD, h1, h2, ih]

theorem mem_keys_incrNested (d : RepoHeatmap) (c c' : Cell) (s : String) :
    c' ∈ dictKeys (incrNested d c s) ↔ c' ∈ dictKeys d ∨ c' = c := by
  induction d with
  | nil => simp [incrNested, dictKeys]
  | cons p rest ih =>
      obtain ⟨c'', m⟩ := p
      by_cases h1 : c = c''
      · subst h1
        by_cases h2 : c' = c <;> simp [incrNested, dictKeys, h2]
      · simp [incrNested, dictKeys, h1] at ih ⊢
        tauto

theorem lookupD_eq_zero_of_not_mem {α : Type} [DecidableEq α]
    (d : List (α × Nat)) (k : α) (h : k ∉ dictKeys d) :
    lookupD d k 0 = 0 := by
  induction d with
  | nil => rfl
  | cons p rest ih =>
      obtain ⟨k2, v⟩ := p
      simp only [dictKeys, List.map_cons, List.mem_cons, not_or] at h
      simp only [lookupD, if_neg h.1]
      exact ih h.2

theorem lookupD_eq_nil_of_not_mem (d : RepoHeatmap) (c : Cell)
    (h : c ∉ dictKeys d) :
    lookupD d c [] = [] := by
  induction d with
  | nil => rfl
  | cons p rest ih =>
      obtain ⟨c2, m⟩ := p
      simp only [dictKeys, List.map_cons, List.mem_cons, not_or] at h
      simp only [lookupD, if_neg h.1]
      exact ih h.2

/-! ### Characterization of `generate_heatmap` by record counting -/

theorem gh_fold_lookup_heatmap (commits : List CommitRecord)
    (acc : Heatmap × RepoHeatmap × RepoStats) (c : Cell) :
    lookupD ((commits.foldl ghStep acc).1) c 0 =
      lookupD acc.1 c 0 +
        commits.countP (fun r => decide (cellOf r = c)) := by
  induction commits generalizing acc with
  | nil => simp
  | cons r rest ih =>
      rw [List.foldl_cons, ih, List.countP_cons]
      have hstep : (ghStep acc r).1 = incr acc.1 (cellOf r) := rfl
      rw [hstep, lookupD_incr]
      by_cases h : cellOf r = c
      · simp [h]
        omega
      · simp [h, Ne.symm h]

theorem gh_fold_mem_heatmap (commits : List CommitRecord)
    (acc : Heatmap × RepoHeatmap × RepoStats) (c : Cell) :
    c ∈ dictKeys ((commits.foldl ghStep acc).1) ↔
      c ∈ dictKeys acc.1 ∨ ∃ r ∈ commits, cellOf r = c := by
  induction commits generalizing acc with
  | nil => simp
  | cons r rest ih =>
      rw [List.foldl_cons, ih]
      have hstep : (ghStep acc r).1 = incr acc.1 (cellOf r) := rfl
      rw [hstep, mem_keys_incr]
      constructor
      · rintro (⟨h | h⟩ | h)
        · exact Or.inl h
        · exact Or.inr ⟨r, by simp, h.symm⟩
        · obtain ⟨r', hr', hc⟩ := h
          exact Or.inr ⟨r', by simp [hr'], hc⟩
      · rintro (h | ⟨r', hr', hc⟩)
        · exact Or.inl (Or.inl h)
        · rcases List.mem_cons.mp hr' with h' | h'
          · subst h'
            exact Or.inl (Or.inr hc.symm)
          · exact Or.inr ⟨r', h', hc⟩

theorem gh_fold_valuesSum_heatmap (commits : List CommitRecord)
    (acc : Heatmap × RepoHeatmap × RepoStats) :
    valuesSum ((commits.foldl ghStep acc).1) =
      valuesSum acc.1 + commits.length := by
  induction commits generalizing acc with
  | nil => simp
  | cons r rest ih =>
      rw [List.foldl_cons, ih]
      have hstep : (ghStep acc r).1 = incr acc.1 (cellOf r) := rfl
      rw [hstep, valuesSum_incr]
      simp
      omega

theorem gh_fold_lookup_repo_stats (commits : List CommitRecord)
    (acc : Heatmap × RepoHeatmap × RepoStats) (s : String) :
    lookupD ((commits.foldl ghStep acc).2.2) s 0 =
      lookupD acc.2.2 s 0 +
        commits.countP (fun r => decide (r.repo_name = s)) := by
  induction commits generalizing acc with
  | nil => simp
  | cons r rest ih =>
      rw [List.foldl_cons, ih, List.countP_cons]
      have hstep : (ghStep acc r).2.2 = incr acc.2.2 r.repo_name := rfl
      rw [hstep, lookupD_incr]
      by_cases h : r.repo_name = s
      · simp [h]
        omega
      · simp [h, Ne.symm h]

theorem gh_fold_mem_repo_stats (commits : List CommitRecord)
    (acc : Heatmap × RepoHeatmap × RepoStats) (s : String) :
    s ∈ dictKeys ((commits.foldl ghStep acc).2.2) ↔
      s ∈ dictKeys acc.2.2 ∨ ∃ r ∈ commits, r.repo_name = s := by
  induction commits generalizing acc with
  | nil => simp
  | cons r rest ih =>
      rw [List.foldl_cons, ih]
      have hstep : (ghStep acc r).2.2 = incr acc.2.2 r.repo_name := rfl
      rw [hstep, mem_keys_incr]
      constructor
      · rintro (⟨h | h⟩ | h)
        · exact Or.inl h
        · exact Or.inr ⟨r, by simp, h.symm⟩
        · obtain ⟨r', hr', hc⟩ := h
          exact Or.inr ⟨r', by simp [hr'], hc⟩
      · rintro (h | ⟨r', hr', hc⟩)
        · exact Or.inl (Or.inl h)
        · rcases List.mem_cons.mp hr' with h' | h'
          · subst h'
            exact Or.inl (Or.inr hc.symm)
          · exact Or.inr ⟨r', h', hc⟩

theorem gh_fold_valuesSum_repo_stats (commits : List CommitRecord)
    (acc : Heatmap × RepoHeatmap × RepoStats) :
    valuesSum ((commits.foldl ghStep acc).2.2) =
      valuesSum acc.2.2 + commits.length := by
  induction commits generalizing acc with
  | nil => simp
  | cons r rest ih =>
      rw [List.foldl_cons, ih]
      have hstep : (ghStep acc r).2.2 = incr acc.2.2 r.repo_name := rfl
      rw [hstep, valuesSum_incr]
      simp
      omega

theorem gh_fold_mem_repo_heatmap (commits : List CommitRecord)
    (acc : Heatmap × RepoHeatmap × RepoStats) (c : Cell) :
    c ∈ dictKeys ((commits.foldl ghStep acc).2.1) ↔
      c ∈ dictKeys acc.2.1 ∨ ∃ r ∈ commits, cellOf r = c := by
  induction commits generalizing acc with
  | nil => simp
  | cons r rest ih =>
      rw [List.foldl_cons, ih]
      have hstep : (ghStep acc r).2.1 =
        incrNested acc.2.1 (cellOf r) r.repo_name := rfl
      rw [hstep, mem_keys_incrNested]
      constructor
      · rintro (⟨h | h⟩ | h)
        · exact Or.inl h
        · exact Or.inr ⟨r, by simp, h.symm⟩
        · obtain ⟨r', hr', hc⟩ := h
          exact Or.inr ⟨r', by simp [hr'], hc⟩
      · rintro (h | ⟨r', hr', hc⟩)
        · exact Or.inl (Or.inl h)
        · rcases List.mem_cons.mp hr' with h' | h'
          · subst h'
            exact Or.inl (Or.inr hc.symm)
          · exact Or.inr ⟨r', h', hc⟩

theorem gh_fold_lookup_inner (commits : List CommitRecord)
    (acc : Heatmap × RepoHeatmap × RepoStats) (c : Cell) (s : String) :
    lookupD (lookupD ((commits.foldl ghStep acc).2.1) c []) s 0 =
      lookupD (lookupD acc.2.1 c []) s 0 +
        commits.countP (fun r => decide (cellOf r = c ∧ r.repo_name = s)) := by
  induction commits generalizing acc with
  | nil => simp
  | cons r rest ih =>
      rw [List.foldl_cons, ih, List.countP_cons]
      have hstep : (ghStep acc r).2.1 =
        incrNested acc.2.1 (cellOf r) r.repo_name := rfl
      rw [hstep, lookupD_incrNested]
      by_cases hc : cellOf r = c
      · rw [if_pos hc.symm, lookupD_incr]
        by_cases hs : r.repo_name = s
        · simp [hc, hs]
          omega
        · simp [hc, hs, Ne.symm hs]
      · rw [if_neg (Ne.symm hc)]
        simp [hc]

theorem gh_fold_mem_inner (commits : List CommitRecord)
    (acc : Heatmap × RepoHeatmap × RepoStats) (c : Cell) (s : String) :
    s ∈ dictKeys (lookupD ((commits.foldl ghStep acc).2.1) c []) ↔
      s ∈ dictKeys (lookupD acc.2.1 c []) ∨
        ∃ r ∈ commits, cellOf r = c ∧ r.repo_name = s := by
  induction commits generalizing acc with
  | nil => simp
  | cons r rest ih =>
      rw [List.foldl_cons, ih]
      have hstep : (ghStep acc r).2.1 =
        incrNested acc.2.1 (cellOf r) r.repo_name := rfl
      rw [hstep, lookupD_incrNested]
      by_cases hc : cellOf r = c
      · subst hc
        rw [if_pos rfl, mem_keys_incr]
        constructor
        · rintro (⟨h | h⟩ | h)
          · exact Or.inl h
          · exact Or.inr ⟨r, by simp, rfl, h.symm⟩
          · obtain ⟨r', hr', hp⟩ := h
            exact Or.inr ⟨r', by simp [hr'], hp⟩
        · rintro (h | ⟨r', hr', hp⟩)
          · exact Or.inl (Or.inl h)
          · rcases List.mem_cons.mp hr' with h' | h'
            · subst h'
              exact Or.inl (Or.inr hp.2.symm)
            · exact Or.inr ⟨r', h', hp⟩
      · rw [if_neg (Ne.symm hc)]
        constructor
        · rintro (h | h)
          · exact Or.inl h
          · obtain ⟨r', hr', hp⟩ := h
            exact Or.inr ⟨r', by simp [hr'], hp⟩
        · rintro (h | ⟨r', hr', hp⟩)
          · exact Or.inl h
          · rcases List.mem_cons.mp hr' with h' | h'
            · subst h'
              exact absurd hp.1 hc
            · exact Or.inr ⟨r', h', hp⟩

theorem gh_fold_inner_valuesSum (commits : List CommitRecord)
    (acc : Heatmap × RepoHeatmap × RepoStats) (c : Cell) :
    valuesSum (lookupD ((commits.foldl ghStep acc).2.1) c []) =
      valuesSum (lookupD acc.2.1 c []) +
        commits.countP (fun r => decide (cellOf r = c)) := by
  induction commits generalizing acc with
  | nil => simp
  | cons r rest ih =>
      rw [List.foldl_cons, ih, List.countP_cons]
      have hstep : (ghStep acc r).2.1 =
        incrNested acc.2.1 (cellOf r) r.repo_name := rfl
      rw [hstep, lookupD_incrNested]
      by_cases hc : cellOf r = c
      · rw [if_pos hc.symm, valuesSum_incr]
        simp [hc]
        omega
      · rw [if_neg (Ne.symm hc)]
        simp [hc]

theorem gh_lookup_heatmap (commits : List CommitRecord) (c : Cell) :
    lookupD (generate_heatmap commits).1 c 0 =
      commits.countP (fun r => decide (cellOf r = c)) := by
  have h := gh_fold_lookup_heatmap commits ([], [], []) c
  simpa [generate_heatmap, lookupD] using h

theorem gh_mem_heatmap (commits : List CommitRecord) (c : Cell) :
    c ∈ dictKeys (generate_heatmap commits).1 ↔
      ∃ r ∈ commits, cellOf r = c := by
  have h := gh_fold_mem_heatmap commits ([], [], []) c
  simpa [generate_heatmap, dictKeys] using h

theorem gh_valuesSum_heatmap (commits : List CommitRecord) :
    valuesSum (generate_heatmap commits).1 = commits.length := by
  have h := gh_fold_valuesSum_heatmap commits ([], [], [])
  simpa [generate_heatmap, valuesSum, dictValues] using h

theorem gh_lookup_repo_stats (commits : List CommitRecord) (s : String) :
    lookupD (generate_heatmap commits).2.2 s 0 =
      commits.countP (fun r => decide (r.repo_name = s)) := by
  have h := gh_fold_lookup_repo_stats commits ([], [], []) s
  simpa [generate_heatmap, lookupD] using h

theorem gh_mem_repo_stats (commits : List CommitRecord) (s : String) :
    s ∈ dictKeys (generate_heatmap commits).2.2 ↔
      ∃ r ∈ commits, r.repo_name = s := by
  have h := gh_fold_mem_repo_stats commits ([], [], []) s
  simpa [generate_heatmap, dictKeys] using h

theorem gh_valuesSum_repo_stats (commits : List CommitRecord) :
    valuesSum (generate_heatmap commits).2.2 = commits.length := by
  have h := gh_fold_valuesSum_repo_stats commits ([], [], [])
  simpa [generate_heatmap, valuesSum, dictValues] using h

theorem gh_mem_repo_heatmap (commits : List CommitRecord) (c : Cell) :
    c ∈ dictKeys (generate_heatmap commits).2.1 ↔
      ∃ r ∈ commits, cellOf r = c := by
  have h := gh_fold_mem_repo_heatmap commits ([], [], []) c
  simpa [generate_heatmap, dictKeys] using h

theorem gh_lookup_inner (commits : List CommitRecord) (c : Cell)
    (s : String) :
    lookupD (lookupD (generate_heatmap commits).2.1 c []) s 0 =
      commits.countP (fun r => decide (cellOf r = c ∧ r.repo_name = s)) := by
  have h := gh_fold_lookup_inner commits ([], [], []) c s
  simpa [generate_heatmap, lookupD] using h

theorem gh_mem_inner (commits : List CommitRecord) (c : Cell) (s : String) :
    s ∈ dictKeys (lookupD (generate_heatmap commits).2.1 c []) ↔
      ∃ r ∈ commits, cellOf r = c ∧ r.repo_name = s := by
  have h := gh_fold_mem_inner commits ([], [], []) c s
  simpa [generate_heatmap, dictKeys, lookupD] using h

theorem gh_inner_valuesSum (commits : List CommitRecord) (c : Cell) :
    valuesSum (lookupD (generate_heatmap commits).2.1 c []) =
      commits.countP (fun r => decide (cellOf r = c)) := by
  have h := gh_fold_inner_valuesSum commits ([], [], []) c
  simpa [generate_heatmap, valuesSum, dictValues, lookupD] using h

/-! ### Lemmas about the field-wise merge `addDict` / `addNested` -/

theorem lookupD_map_mk {α β : Type} [DecidableEq α] (ks : List α)
    (g : α → β) (k : α) (dflt : β) :
    lookupD (ks.map (fun x => (x, g x))) k dflt =
      if k ∈ ks then g k else dflt := by
  induction ks with
  | nil => simp [lookupD]
  | cons a rest ih =>
      by_cases h : k = a
      · subst h
        simp [lookupD]
      · simp [lookupD, h, ih]

theorem dictKeys_map_mk {α β : Type} (ks : List α) (g : α → β) :
    dictKeys (ks.map (fun x => (x, g x))) = ks := by
  simp only [dictKeys, List.map_map]
  exact List.map_id ks

theorem containsKey_iff {α β : Type} [DecidableEq α] (d : List (α × β))
    (k : α) :
    containsKey d k = true ↔ k ∈ dictKeys d := by
  induction d with
  | nil => simp [containsKey, lookupOpt, dictKeys]
  | cons p rest ih =>
      obtain ⟨k', v⟩ := p
      by_cases h : k = k' <;>
        simp only [containsKey, lookupOpt, dictKeys, List.map_cons,
          List.mem_cons, if_pos, if_neg, h] at ih ⊢ <;>
        simp [h, ih]

theorem not_containsKey {α β : Type} [DecidableEq α] (d : List (α × β))
    (k : α) (h : k ∉ dictKeys d) :
    (! containsKey d k) = true := by
  simp only [Bool.not_eq_true']
  rcases hcb : containsKey d k
  · rfl
  · exact absurd ((containsKey_iff d k).mp hcb) h

theorem mem_keys_addDict {α : Type} [DecidableEq α]
    (d₁ d₂ : List (α × Nat)) (k : α) :
    k ∈ dictKeys (addDict d₁ d₂) ↔
      k ∈ dictKeys d₁ ∨ k ∈ dictKeys d₂ := by
  rw [addDict, dictKeys_map_mk, List.mem_append, List.mem_filter]
  constructor
  · rintro (h | ⟨h2, _⟩)
    · exact Or.inl h
    · exact Or.inr h2
  · rintro (h | h2)
    · exact Or.inl h
    · by_cases h1 : k ∈ dictKeys d₁
      · exact Or.inl h1
      · exact Or.inr ⟨h2, not_containsKey d₁ k h1⟩

theorem lookupD_addDict {α : Type} [DecidableEq α]
    (d₁ d₂ : List (α × Nat)) (k : α) :
    lookupD (addDict d₁ d₂) k 0 = lookupD d₁ k 0 + lookupD d₂ k 0 := by
  rw [addDict, lookupD_map_mk]
  by_cases h : k ∈ dictKeys d₁ ++ (dictKeys d₂).filter
      (fun k => ! containsKey d₁ k)
  · rw [if_pos h]
  · rw [if_neg h]
    rw [List.mem_append] at h
    push_neg at h
    have h1 : k ∉ dictKeys d₁ := h.1
    have h2 : k ∉ dictKeys d₂ := by
      intro hk
      exact h.2 (List.mem_filter.mpr ⟨hk, not_containsKey d₁ k h1⟩)
    rw [lookupD_eq_zero_of_not_mem d₁ k h1,
        lookupD_eq_zero_of_not_mem d₂ k h2]

theorem mem_keys_addNested (d₁ d₂ : RepoHeatmap) (c : Cell) :
    c ∈ dictKeys (addNested d₁ d₂) ↔
      c ∈ dictKeys d₁ ∨ c ∈ dictKeys d₂ := by
  rw [addNested, dictKeys_map_mk, List.mem_append, List.mem_filter]
  constructor
  · rintro (h | ⟨h2, _⟩)
    · exact Or.inl h
    · exact Or.inr h2
  · rintro (h | h2)
    · exact Or.inl h
    · by_cases h1 : c ∈ dictKeys d₁
      · exact Or.inl h1
      · exact Or.inr ⟨h2, not_containsKey d₁ c h1⟩

theorem lookupD_addNested (d₁ d₂ : RepoHeatmap) (c : Cell) :
    lookupD (addNested d₁ d₂) c [] =
      addDict (lookupD d₁ c []) (lookupD d₂ c []) := by
  rw [addNested, lookupD_map_mk]
  by_cases h : c ∈ dictKeys d₁ ++ (dictKeys d₂).filter
      (fun c => ! containsKey d₁ c)
  · rw [if_pos h]
  · rw [if_neg h]
    rw [List.mem_append] at h
    push_neg at h
    have h1 : c ∉ dictKeys d₁ := h.1
    have h2 : c ∉ dictKeys d₂ := by
      intro hk
      exact h.2 (List.mem_filter.mpr ⟨hk, not_containsKey d₁ c h1⟩)
    rw [lookupD_eq_nil_of_not_mem d₁ c h1,
        lookupD_eq_nil_of_not_mem d₂ c h2]
    rfl

/-! ### Claim theorems: aggregation (C1, C4, C5) -/

/-- C1: for every finite list of commit records, the sum of the values of
the heatmap and the sum of the values of the repo stats both equal the
length of the input list, and at every cell key present in the heatmap the
heatmap count equals the sum of the per-source counts of the repo heatmap
at that key. -/
theorem generate_heatmap_conservation (commits : List CommitRecord) :
    valuesSum (generate_heatmap commits).1 = commits.length ∧
    valuesSum (generate_heatmap commits).2.2 = commits.length ∧
    ∀ c ∈ dictKeys (generate_heatmap commits).1,
      lookupD (generate_heatmap commits).1 c 0 =
        valuesSum (lookupD (generate_heatmap commits).2.1 c []) := by
  refine ⟨gh_valuesSum_heatmap commits, gh_valuesSum_repo_stats commits, ?_⟩
  intro c _
  rw [gh_lookup_heatmap, gh_inner_valuesSum]

/-- Witness for C1 at the spec's end-to-end example batch. -/
theorem generate_heatmap_conservation_witness :
    valuesSum (generate_heatmap
      [⟨⟨2024, 1, 1⟩, 9, "repoA"⟩, ⟨⟨2024, 1, 1⟩, 9, "repoA"⟩,
       ⟨⟨2024, 1, 1⟩, 14, "repoB"⟩, ⟨⟨2024, 1, 2⟩, 9, "repoA"⟩]).1 =
      ([⟨⟨2024, 1, 1⟩, 9, "repoA"⟩, ⟨⟨2024, 1, 1⟩, 9, "repoA"⟩,
        ⟨⟨2024, 1, 1⟩, 14, "repoB"⟩, ⟨⟨2024, 1, 2⟩, 9, "repoA"⟩] :
        List CommitRecord).length ∧
    lookupD (generate_heatmap
      [⟨⟨2024, 1, 1⟩, 9, "repoA"⟩, ⟨⟨2024, 1, 1⟩, 9, "repoA"⟩,
       ⟨⟨2024, 1, 1⟩, 14, "repoB"⟩, ⟨⟨2024, 1, 2⟩, 9, "repoA"⟩]).1
      (⟨2024, 1, 1⟩, 9) 0 =
    valuesSum (lookupD (generate_heatmap
      [⟨⟨2024, 1, 1⟩, 9, "repoA"⟩, ⟨⟨2024, 1, 1⟩, 9, "repoA"⟩,
       ⟨⟨2024, 1, 1⟩, 14, "repoB"⟩, ⟨⟨2024, 1, 2⟩, 9, "repoA"⟩]).2.1
      (⟨2024, 1, 1⟩, 9) []) :=
  ⟨(generate_heatmap_conservation _).1,
   (generate_heatmap_conservation
      [⟨⟨2024, 1, 1⟩, 9, "repoA"⟩, ⟨⟨2024, 1, 1⟩, 9, "repoA"⟩,
       ⟨⟨2024, 1, 1⟩, 14, "repoB"⟩, ⟨⟨2024, 1, 2⟩, 9, "repoA"⟩]).2.2
     (⟨2024, 1, 1⟩, 9) (by decide)⟩

/-- C4: aggregating any permutation of a commit batch yields the same
three maps as key-value mappings: same key sets and same values. -/
theorem generate_heatmap_perm_invariant (l₁ l₂ : List CommitRecord)
    (h : l₁.Perm l₂) :
    DictEquiv (generate_heatmap l₁).1 (generate_heatmap l₂).1 ∧
    NestedEquiv (generate_heatmap l₁).2.1 (generate_heatmap l₂).2.1 ∧
    DictEquiv (generate_heatmap l₁).2.2 (generate_heatmap l₂).2.2 := by
  refine ⟨⟨?_, ?_⟩, ⟨?_, ?_⟩, ⟨?_, ?_⟩⟩
  · intro c
    rw [gh_mem_heatmap, gh_mem_heatmap]
    constructor <;> rintro ⟨r, hr, hc⟩
    · exact ⟨r, h.mem_iff.mp hr, hc⟩
    · exact ⟨r, h.mem_iff.mpr hr, hc⟩
  · intro c
    rw [gh_lookup_heatmap, gh_lookup_heatmap]
    exact h.countP_eq _
  · intro c
    rw [gh_mem_repo_heatmap, gh_mem_repo_heatmap]
    constructor <;> rintro ⟨r, hr, hc⟩
    · exact ⟨r, h.mem_iff.mp hr, hc⟩
    · exact ⟨r, h.mem_iff.mpr hr, hc⟩
  · intro c
    constructor
    · intro s
      rw [gh_mem_inner, gh_mem_inner]
      constructor <;> rintro ⟨r, hr, hc⟩
      · exact ⟨r, h.mem_iff.mp hr, hc⟩
      · exact ⟨r, h.mem_iff.mpr hr, hc⟩
    · intro s
      rw [gh_lookup_inner, gh_lookup_inner]
      exact h.countP_eq _
  · intro s
    rw [gh_mem_repo_stats, gh_mem_repo_stats]
    constructor <;> rintro ⟨r, hr, hc⟩
    · exact ⟨r, h.mem_iff.mp hr, hc⟩
    · exact ⟨r, h.mem_iff.mpr hr, hc⟩
  · intro s
    rw [gh_lookup_repo_stats, gh_lookup_repo_stats]
    exact h.countP_eq _

/-- Witness for C4 at a concrete two-record batch and its reversal. -/
theorem generate_heatmap_perm_invariant_witness :
    DictEquiv
      (generate_heatmap
        [⟨⟨2024, 1, 1⟩, 9, "repoA"⟩, ⟨⟨2024, 1, 1⟩, 14, "repoB"⟩]).1
      (generate_heatmap
        [⟨⟨2024, 1, 1⟩, 14, "repoB"⟩, ⟨⟨2024, 1, 1⟩, 9, "repoA"⟩]).1 ∧
    NestedEquiv
      (generate_heatmap
        [⟨⟨2024, 1, 1⟩, 9, "repoA"⟩, ⟨⟨2024, 1, 1⟩, 14, "repoB"⟩]).2.1
      (generate_heatmap
        [⟨⟨2024, 1, 1⟩, 14, "repoB"⟩, ⟨⟨2024, 1, 1⟩, 9, "repoA"⟩]).2.1 ∧
    DictEquiv
      (generate_heatmap
        [⟨⟨2024, 1, 1⟩, 9, "repoA"⟩, ⟨⟨2024, 1, 1⟩, 14, "repoB"⟩]).2.2
      (generate_heatmap
        [⟨⟨2024, 1, 1⟩, 14, "repoB"⟩, ⟨⟨2024, 1, 1⟩, 9, "repoA"⟩]).2.2 :=
  generate_heatmap_perm_invariant
    [⟨⟨2024, 1, 1⟩, 9, "repoA"⟩, ⟨⟨2024, 1, 1⟩, 14, "repoB"⟩]
    [⟨⟨2024, 1, 1⟩, 14, "repoB"⟩, ⟨⟨2024, 1, 1⟩, 9, "repoA"⟩]
    (by decide)

/-- C5: aggregating a whole batch equals aggregating any two sub-lists
that partition it and combining the partial aggregates by field-wise
(per-key) sum, the three maps compared as key-value mappings. -/
theorem generate_heatmap_partition (l l₁ l₂ : List CommitRecord)
    (h : l.Perm (l₁ ++ l₂)) :
    DictEquiv (generate_heatmap l).1
      (addDict (generate_heatmap l₁).1 (generate_heatmap l₂).1) ∧
    NestedEquiv (generate_heatmap l).2.1
      (addNested (generate_heatmap l₁).2.1 (generate_heatmap l₂).2.1) ∧
    DictEquiv (generate_heatmap l).2.2
      (addDict (generate_heatmap l₁).2.2 (generate_heatmap l₂).2.2) := by
  refine ⟨⟨?_, ?_⟩, ⟨?_, ?_⟩, ⟨?_, ?_⟩⟩
  · intro c
    rw [gh_mem_heatmap, mem_keys_addDict, gh_mem_heatmap, gh_mem_heatmap]
    constructor
    · rintro ⟨r, hr, hc⟩
      rcases List.mem_append.mp (h.mem_iff.mp hr) with h' | h'
      · exact Or.inl ⟨r, h', hc⟩
      · exact Or.inr ⟨r, h', hc⟩
    · rintro (⟨r, hr, hc⟩ | ⟨r, hr, hc⟩)
      · exact ⟨r, h.mem_iff.mpr (List.mem_append.mpr (Or.inl hr)), hc⟩
      · exact ⟨r, h.mem_iff.mpr (List.mem_append.mpr (Or.inr hr)), hc⟩
  · intro c
    rw [gh_lookup_heatmap, lookupD_addDict, gh_lookup_heatmap,
        gh_lookup_heatmap, h.countP_eq, List.countP_append]
  · intro c
    rw [gh_mem_repo_heatmap, mem_keys_addNested, gh_mem_repo_heatmap,
        gh_mem_repo_heatmap]
    constructor
    · rintro ⟨r, hr, hc⟩
      rcases List.mem_append.mp (h.mem_iff.mp hr) with h' | h'
      · exact Or.inl ⟨r, h', hc⟩
      · exact Or.inr ⟨r, h', hc⟩
    · rintro (⟨r, hr, hc⟩ | ⟨r, hr, hc⟩)
      · exact ⟨r, h.mem_iff.mpr (List.mem_append.mpr (Or.inl hr)), hc⟩
      · exact ⟨r, h.mem_iff.mpr (List.mem_append.mpr (Or.inr hr)), hc⟩
  · intro c
    rw [lookupD_addNested]
    constructor
    · intro s
      rw [gh_mem_inner, mem_keys_addDict, gh_mem_inner, gh_mem_inner]
      constructor
      · rintro ⟨r, hr, hc⟩
        rcases List.mem_append.mp (h.mem_iff.mp hr) with h' | h'
        · exact Or.inl ⟨r, h', hc⟩
        · exact Or.inr ⟨r, h', hc⟩
      · rintro (⟨r, hr, hc⟩ | ⟨r, hr, hc⟩)
        · exact ⟨r, h.mem_iff.mpr (List.mem_append.mpr (Or.inl hr)), hc⟩
        · exact ⟨r, h.mem_iff.mpr (List.mem_append.mpr (Or.inr hr)), hc⟩
    · intro s
      rw [gh_lookup_inner, lookupD_addDict, gh_lookup_inner,
          gh_lookup_inner, h.countP_eq, List.countP_append]
  · intro s
    rw [gh_mem_repo_stats, mem_keys_addDict, gh_mem_repo_stats,
        gh_mem_repo_stats]
    constructor
    · rintro ⟨r, hr, hc⟩
      rcases List.mem_append.mp (h.mem_iff.mp hr) with h' | h'
      · exact Or.inl ⟨r, h', hc⟩
      · exact Or.inr ⟨r, h', hc⟩
    · rintro (⟨r, hr, hc⟩ | ⟨r, hr, hc⟩)
      · exact ⟨r, h.mem_iff.mpr (List.mem_append.mpr (Or.inl hr)), hc⟩
      · exact ⟨r, h.mem_iff.mpr (List.mem_append.mpr (Or.inr hr)), hc⟩
  · intro s
    rw [gh_lookup_repo_stats, lookupD_addDict, gh_lookup_repo_stats,
        gh_lookup_repo_stats, h.countP_eq, List.countP_append]

/-- Witness for C5 at a concrete three-record batch split out of order. -/
theorem generate_heatmap_partition_witness :
    DictEquiv
      (generate_heatmap
        [⟨⟨2024, 1, 1⟩, 9, "repoA"⟩, ⟨⟨2024, 1, 1⟩, 14, "repoB"⟩,
         ⟨⟨2024, 1, 2⟩, 9, "repoA"⟩]).1
      (addDict
        (generate_heatmap [⟨⟨2024, 1, 1⟩, 14, "repoB"⟩]).1
        (generate_heatmap
          [⟨⟨2024, 1, 1⟩, 9, "repoA"⟩, ⟨⟨2024, 1, 2⟩, 9, "repoA"⟩]).1) ∧
    NestedEquiv
      (generate_heatmap
        [⟨⟨2024, 1, 1⟩, 9, "repoA"⟩, ⟨⟨2024, 1, 1⟩, 14, "repoB"⟩,
         ⟨⟨2024, 1, 2⟩, 9, "repoA"⟩]).2.1
      (addNested
        (generate_heatmap [⟨⟨2024, 1, 1⟩, 14, "repoB"⟩]).2.1
        (generate_heatmap
          [⟨⟨2024, 1, 1⟩, 9, "repoA"⟩, ⟨⟨2024, 1, 2⟩, 9, "repoA"⟩]).2.1) ∧
    DictEquiv
      (generate_heatmap
        [⟨⟨2024, 1, 1⟩, 9, "repoA"⟩, ⟨⟨2024, 1, 1⟩, 14, "repoB"⟩,
         ⟨⟨2024, 1, 2⟩, 9, "repoA"⟩]).2.2
      (addDict
        (generate_heatmap [⟨⟨2024, 1, 1⟩, 14, "repoB"⟩]).2.2
        (generate_heatmap
          [⟨⟨2024, 1, 1⟩, 9, "repoA"⟩, ⟨⟨2024, 1, 2⟩, 9, "repoA"⟩]).2.2) :=
  generate_heatmap_partition
    [⟨⟨2024, 1, 1⟩, 9, "repoA"⟩, ⟨⟨2024, 1, 1⟩, 14, "repoB"⟩,
     ⟨⟨2024, 1, 2⟩, 9, "repoA"⟩]
    [⟨⟨2024, 1, 1⟩, 14, "repoB"⟩]
    [⟨⟨2024, 1, 1⟩, 9, "repoA"⟩, ⟨⟨2024, 1, 2⟩, 9, "repoA"⟩]
    (by decide)

/-! ### Claim theorems: intensity scale (C2, C3) -/

theorem qle_quarter (c m : ℕ) : ((c:ℚ) ≤ (m:ℚ) * 0.25) ↔ 4 * c ≤ m := by
  have h : ((c:ℚ) ≤ (m:ℚ) * 0.25) ↔ ((4 * c : ℕ) : ℚ) ≤ ((m : ℕ) : ℚ) := by
    push_cast
    constructor <;> intro h <;> linarith
  rw [h, Nat.cast_le]

theorem qle_half (c m : ℕ) : ((c:ℚ) ≤ (m:ℚ) * 0.5) ↔ 2 * c ≤ m := by
  have h : ((c:ℚ) ≤ (m:ℚ) * 0.5) ↔ ((2 * c : ℕ) : ℚ) ≤ ((m : ℕ) : ℚ) := by
    push_cast
    constructor <;> intro h <;> linarith
  rw [h, Nat.cast_le]

theorem qle_threeq (c m : ℕ) : ((c:ℚ) ≤ (m:ℚ) * 0.75) ↔ 4 * c ≤ 3 * m := by
  have h : ((c:ℚ) ≤ (m:ℚ) * 0.75) ↔ ((4 * c : ℕ) : ℚ) ≤ ((3 * m : ℕ) : ℚ) := by
    push_cast
    constructor <;> intro h <;> linarith
  rw [h, Nat.cast_le]

theorem htmlLevel_eq_levelOfSpec (max_count count : Nat) :
    htmlLevel max_count count = levelOfSpec count max_count := by
  unfold htmlLevel levelOfSpec
  simp only [qle_quarter, qle_half, qle_threeq]

/-- C2: for every count and every `max_count ≥ 1` the intensity level is
0 exactly on count 0, else bucketed by quartile of `max_count` with
inclusive non-strict upper bounds (`count ≤ 0.25·max` level 1,
`≤ 0.5·max` level 2, `≤ 0.75·max` level 3, else 4); in particular the
level at `count = max_count` is 4. -/
theorem htmlLevel_quartile_policy (count max_count : Nat)
    (h : 1 ≤ max_count) :
    htmlLevel max_count count = levelOfSpec count max_count ∧
    htmlLevel max_count max_count = 4 := by
  refine ⟨htmlLevel_eq_levelOfSpec max_count count, ?_⟩
  rw [htmlLevel_eq_levelOfSpec]
  unfold levelOfSpec
  have h0 : ¬ max_count = 0 := by omega
  have h1 : ¬ 4 * max_count ≤ max_count := by omega
  have h2 : ¬ 2 * max_count ≤ max_count := by omega
  have h3 : ¬ 4 * max_count ≤ 3 * max_count := by omega
  rw [if_neg h0, if_neg h1, if_neg h2, if_neg h3]

/-- Witness for C2 at `count = 3`, `max_count = 10`. -/
theorem htmlLevel_quartile_policy_witness :
    htmlLevel 10 3 = levelOfSpec 3 10 ∧ htmlLevel 10 10 = 4 :=
  htmlLevel_quartile_policy 3 10 (by decide)

/-- C3: for every count and maximum, the index in the ordered 5-color
ANSI list of the color chosen by the terminal renderer equals the HTML
renderer's `level-N` for the same cell. -/
theorem get_color_index_eq_htmlLevel (max_count count : Nat) :
    ansiColors.indexOf (get_color max_count count) =
      htmlLevel max_count count := by
  unfold get_color htmlLevel
  split_ifs <;> rfl

/-! ### Claim theorem: terminal cell body (C6) -/

/-- C6: the color-mode 2-character cell body is two blanks at count 0,
the right-aligned digits in width 2 for counts 1-9, and the saturation
marker `++` from count 10 on; in particular count 10 at `max_count` 10
renders `++` in the terminal and level 4 in HTML. -/
theorem cellBlock_rendering (count : Nat) :
    (count = 0 → cellBlock count = "  ") ∧
    (1 ≤ count → count ≤ 9 →
      cellBlock count = formatRight 2 (toString count) ∧
      (cellBlock count).length = 2) ∧
    (10 ≤ count → cellBlock count = "++") ∧
    cellBlock 10 = "++" ∧ htmlLevel 10 10 = 4 := by
  refine ⟨?_, ?_, ?_, by decide, ?_⟩
  · intro h
    subst h
    rfl
  · intro h1 h9
    constructor
    · unfold cellBlock
      rw [if_neg (by omega), if_pos (by omega)]
    · interval_cases count <;> decide
  · intro h10
    unfold cellBlock
    rw [if_neg (by omega), if_neg (by omega)]
  · rw [htmlLevel_eq_levelOfSpec]
    decide

/-- Witness for C6 at counts 5 and 12. -/
theorem cellBlock_rendering_witness :
    (cellBlock 5 = formatRight 2 (toString 5) ∧ (cellBlock 5).length = 2) ∧
    cellBlock 12 = "++" :=
  ⟨(cellBlock_rendering 5).2.1 (by decide) (by decide),
   (cellBlock_rendering 12).2.2.1 (by decide)⟩

/-! ### Claim theorems: no-data short-circuit (C7) and write framing (C10) -/

/-- C7: on an entirely empty aggregate each of the three renderers emits
only the short no-data notice — the color and plain terminal renderers
print exactly that line, and the HTML renderer's only effect is printing
it (no table, no write, no error). -/
theorem renderers_no_data (hm : Heatmap) (rs₁ rs₂ rs₃ : Option RepoStats)
    (rh : Option RepoHeatmap) (path : String) (h : hm = []) :
    print_heatmap_table hm rs₁ = noDataMsg ++ "\n" ∧
    print_heatmap_table_plain hm rs₂ = noDataMsg ++ "\n" ∧
    generate_html_heatmap hm path rs₃ rh = [Effect.print noDataMsg] := by
  subst h
  refine ⟨?_, ?_, ?_⟩
  · rw [print_heatmap_table, if_pos rfl]
  · rw [print_heatmap_table_plain, if_pos rfl]
  · rw [generate_html_heatmap, if_pos rfl]

/-- Witness for C7 at the empty dict. -/
theorem renderers_no_data_witness :
    print_heatmap_table [] none = noDataMsg ++ "\n" ∧
    print_heatmap_table_plain [] none = noDataMsg ++ "\n" ∧
    generate_html_heatmap [] "output.html" none none =
      [Effect.print noDataMsg] :=
  renderers_no_data [] none none none none "output.html" rfl

/-- C10: on an empty aggregate the HTML renderer performs no file write
at all — its effect list is exactly the one no-data print, and applying
its effects leaves every filesystem state unchanged. -/
theorem generate_html_heatmap_empty_frame (hm : Heatmap) (path : String)
    (rs : Option RepoStats) (rh : Option RepoHeatmap) (fs : FileSystem)
    (h : hm = []) :
    generate_html_heatmap hm path rs rh = [Effect.print noDataMsg] ∧
    applyEffects fs (generate_html_heatmap hm path rs rh) = fs := by
  subst h
  have heq : generate_html_heatmap [] path rs rh = [Effect.print noDataMsg] := by
    rw [generate_html_heatmap, if_pos rfl]
  refine ⟨heq, ?_⟩
  rw [heq]
  rfl

/-- Witness for C10 at the empty dict and the empty filesystem. -/
theorem generate_html_heatmap_empty_frame_witness :
    generate_html_heatmap [] "out.html" none none =
      [Effect.print noDataMsg] ∧
    applyEffects (fun _ => none) (generate_html_heatmap [] "out.html"
      none none) = (fun _ => none) :=
  generate_html_heatmap_empty_frame [] "out.html" none none
    (fun _ => none) rfl

/-! ### Characterization of the year-span header (C8) -/

theorem yearColspansAux_append (ds : List Date) (d : Date) :
    yearColspansAux (ds ++ [d]) =
      (if some d.year ≠ (yearColspansAux ds).1 then
        match (yearColspansAux ds).1 with
        | some cy => (some d.year, ds.length,
            (yearColspansAux ds).2.2 ++ [(cy, ds.length - (yearColspansAux ds).2.1)])
        | none => (some d.year, ds.length, (yearColspansAux ds).2.2)
      else yearColspansAux ds) := by
  unfold yearColspansAux
  rw [List.enum_append, List.foldl_append]
  rfl


theorem yearColspansAux_append_same (ds : List Date) (d : Date)
    (cy start : Nat) (acc : List (Nat × Nat))
    (h : yearColspansAux ds = (some cy, start, acc)) (heq : d.year = cy) :
    yearColspansAux (ds ++ [d]) = (some cy, start, acc) := by
  rw [yearColspansAux_append, h, if_neg (by simp [heq])]

theorem yearColspansAux_append_new (ds : List Date) (d : Date)
    (cy start : Nat) (acc : List (Nat × Nat))
    (h : yearColspansAux ds = (some cy, start, acc)) (hne : d.year ≠ cy) :
    yearColspansAux (ds ++ [d]) =
      (some d.year, ds.length, acc ++ [(cy, ds.length - start)]) := by
  rw [yearColspansAux_append, h, if_pos (by simp [hne])]

theorem yearColspans_of_aux (dates : List Date) (cy start : Nat)
    (acc : List (Nat × Nat))
    (h : yearColspansAux dates = (some cy, start, acc)) :
    yearColspans dates = acc ++ [(cy, dates.length - start)] := by
  unfold yearColspans
  rw [h]

theorem yearColspans_inv (dates : List Date) (h : dates ≠ []) :
    ∃ start acc,
      yearColspansAux dates =
        (some ((dates.getLast?.getD default).year), start, acc) ∧
      start < dates.length ∧
      yearColspans dates =
        acc ++ [((dates.getLast?.getD default).year, dates.length - start)] ∧
      (yearColspans dates).flatMap (fun p => List.replicate p.2 p.1) =
        dates.map (fun d => d.year) ∧
      List.Chain' (fun p q => p.1 ≠ q.1) (yearColspans dates) ∧
      ∀ p ∈ yearColspans dates, 0 < p.2 := by
  induction dates using List.reverseRecOn with
  | nil => exact absurd rfl h
  | append_singleton ds d ih =>
      rcases eq_or_ne ds [] with hds | hds
      · subst hds
        refine ⟨0, [], rfl, by simp, rfl, ?_, ?_, ?_⟩
        · simp [yearColspans, yearColspansAux, List.enum]
        · simp [yearColspans, yearColspansAux, List.enum]
        · simp [yearColspans, yearColspansAux, List.enum]
      · obtain ⟨start, acc, haux, hstart, hout, hflat, hchain, hpos⟩ := ih hds
        have hlen : (ds ++ [d]).length = ds.length + 1 := by simp
        have hlast : ((ds ++ [d]).getLast?.getD default) = d := by
          rw [List.getLast?_concat]
          rfl
        by_cases hy : d.year = (ds.getLast?.getD default).year
        · have happ := yearColspansAux_append_same ds d _ start acc haux hy
          have hout' := yearColspans_of_aux (ds ++ [d]) _ start acc happ
          rw [hlen] at hout'
          refine ⟨start, acc, ?_, ?_, ?_, ?_, ?_, ?_⟩
          · rw [happ, hlast, hy]
          · rw [hlen]
            omega
          · rw [hout', hlast, hlen, hy]
          · have hn : ds.length + 1 - start = (ds.length - start) + 1 := by
              omega
            have hflat' : acc.flatMap (fun p => List.replicate p.2 p.1) ++
                List.replicate (ds.length - start)
                  (ds.getLast?.getD default).year =
                ds.map (fun d => d.year) := by
              rw [hout] at hflat
              simpa using hflat
            rw [hout', hn, List.map_append]
            simp only [List.flatMap_append, List.flatMap_cons,
              List.flatMap_nil, List.append_nil, List.replicate_succ']
            rw [← List.append_assoc, hflat']
            simp [hy]
          · rw [hout] at hchain
            rw [hout']
            rcases List.chain'_append.mp hchain with ⟨hca, _, hlink⟩
            refine List.chain'_append.mpr ⟨hca, List.chain'_singleton _, ?_⟩
            intro x hx y hy2
            simp only [List.head?_cons, Option.mem_def, Option.some.injEq] at hy2
            subst hy2
            exact hlink x hx ((ds.getLast?.getD default).year,
              ds.length - start) rfl
          · intro p hp
            rw [hout'] at hp
            rcases List.mem_append.mp hp with hp | hp
            · exact hpos p (by rw [hout]; exact List.mem_append.mpr (Or.inl hp))
            · simp only [List.mem_singleton] at hp
              rw [hp]
              show 0 < ds.length + 1 - start
              omega
        · have happ := yearColspansAux_append_new ds d _ start acc haux hy
          rw [← hout] at happ
          have hout' := yearColspans_of_aux (ds ++ [d]) _ ds.length
            (yearColspans ds) happ
          rw [hlen] at hout'
          simp only [Nat.add_sub_cancel_left] at hout'
          refine ⟨ds.length, yearColspans ds, ?_, ?_, ?_, ?_, ?_, ?_⟩
          · rw [happ, hlast]
          · rw [hlen]
            omega
          · rw [hout', hlast, hlen]
            simp
          · rw [hout']
            simp only [List.flatMap_append, List.flatMap_cons,
              List.flatMap_nil, List.append_nil, List.replicate_one,
              List.map_append, hflat]
            simp
          · rw [hout']
            refine List.chain'_append.mpr
              ⟨hchain, List.chain'_singleton _, ?_⟩
            intro x hx y hy2
            simp only [List.head?_cons, Option.mem_def, Option.some.injEq] at hy2
            subst hy2
            rw [hout, List.getLast?_concat] at hx
            simp only [Option.mem_def, Option.some.injEq] at hx
            subst hx
            simp only [ne_eq]
            intro hcon
            exact hy hcon.symm
          · intro p hp
            rw [hout'] at hp
            rcases List.mem_append.mp hp with hp | hp
            · exact hpos p hp
            · simp only [List.mem_singleton] at hp
              rw [hp]
              show 0 < 1
              omega

theorem yearColspans_flatten (dates : List Date) :
    (yearColspans dates).flatMap (fun p => List.replicate p.2 p.1) =
      dates.map (fun d => d.year) := by
  rcases eq_or_ne dates [] with h | h
  · subst h
    rfl
  · obtain ⟨_, _, _, _, _, hflat, _, _⟩ := yearColspans_inv dates h
    exact hflat

theorem yearColspans_chain (dates : List Date) :
    List.Chain' (fun p q : Nat × Nat => p.1 ≠ q.1) (yearColspans dates) := by
  rcases eq_or_ne dates [] with h | h
  · subst h
    simp [yearColspans, yearColspansAux, List.enum]
  · obtain ⟨_, _, _, _, _, _, hchain, _⟩ := yearColspans_inv dates h
    exact hchain

theorem yearColspans_pos (dates : List Date) :
    ∀ p ∈ yearColspans dates, 0 < p.2 := by
  rcases eq_or_ne dates [] with h | h
  · subst h
    simp [yearColspans, yearColspansAux, List.enum]
  · obtain ⟨_, _, _, _, _, _, _, hpos⟩ := yearColspans_inv dates h
    exact hpos

theorem flatMap_replicate_length (l : List (Nat × Nat)) :
    (l.flatMap (fun p => List.replicate p.2 p.1)).length =
      (l.map Prod.snd).sum := by
  induction l with
  | nil => rfl
  | cons p rest ih => simp [List.flatMap_cons, ih]

theorem yearColspans_sum (dates : List Date) :
    ((yearColspans dates).map Prod.snd).sum = dates.length := by
  rw [← flatMap_replicate_length, yearColspans_flatten, List.length_map]

/-- C8: for every non-empty aggregate, the year-span header row built by
the HTML renderer has one cell per contiguous run of the sorted dates
sharing a calendar year — expanding each `(year, colspan)` pair
reproduces the year sequence of the sorted dates, adjacent cells carry
different years, every colspan is positive, and the colspans sum to the
number of distinct dates. -/
theorem html_year_header_runs (hm : Heatmap) (h : hm ≠ []) :
    ((yearColspans (sortedDates hm)).map Prod.snd).sum =
      (sortedDates hm).length ∧
    (yearColspans (sortedDates hm)).flatMap
      (fun p => List.replicate p.2 p.1) =
      (sortedDates hm).map (fun d => d.year) ∧
    List.Chain' (fun p q : Nat × Nat => p.1 ≠ q.1)
      (yearColspans (sortedDates hm)) ∧
    ∀ p ∈ yearColspans (sortedDates hm), 0 < p.2 :=
  ⟨yearColspans_sum _, yearColspans_flatten _, yearColspans_chain _,
   yearColspans_pos _⟩

/-- Witness for C8 at a two-cell aggregate spanning a year boundary. -/
theorem html_year_header_runs_witness :
    ((yearColspans (sortedDates
        [((⟨2023, 12, 31⟩, 5), 2), ((⟨2024, 1, 1⟩, 3), 1)])).map
      Prod.snd).sum =
      (sortedDates
        [((⟨2023, 12, 31⟩, 5), 2), ((⟨2024, 1, 1⟩, 3), 1)]).length ∧
    (yearColspans (sortedDates
        [((⟨2023, 12, 31⟩, 5), 2), ((⟨2024, 1, 1⟩, 3), 1)])).flatMap
      (fun p => List.replicate p.2 p.1) =
      (sortedDates
        [((⟨2023, 12, 31⟩, 5), 2), ((⟨2024, 1, 1⟩, 3), 1)]).map
        (fun d => d.year) ∧
    List.Chain' (fun p q : Nat × Nat => p.1 ≠ q.1)
      (yearColspans (sortedDates
        [((⟨2023, 12, 31⟩, 5), 2), ((⟨2024, 1, 1⟩, 3), 1)])) ∧
    ∀ p ∈ yearColspans (sortedDates
        [((⟨2023, 12, 31⟩, 5), 2), ((⟨2024, 1, 1⟩, 3), 1)]), 0 < p.2 :=
  html_year_header_runs
    [((⟨2023, 12, 31⟩, 5), 2), ((⟨2024, 1, 1⟩, 3), 1)] (by decide)

/-! ### Characterization of the date-header separator flags (C9) -/

theorem dateHeaderFlagsAux_some (dates : List Date) (p : Date) :
    dateHeaderFlagsAux (some p.year) dates =
      List.zipWith (fun prev cur => decide (cur.year ≠ prev.year))
        (p :: dates) dates := by
  induction dates generalizing p with
  | nil => rfl
  | cons d rest ih =>
      show (decide (d.year ≠ p.year)) ::
        dateHeaderFlagsAux (some d.year) rest = _
      rw [List.zipWith_cons_cons, ih d]

/-- C9: the date header applies the separator class exactly on the date
cells whose calendar year differs from the immediately preceding
column's year, and never on the very first column: the renderer's flag
list equals the spec-side flag list. -/
theorem dateHeaderFlags_eq_spec (dates : List Date) :
    dateHeaderFlags dates = dateHeaderFlagsSpec dates := by
  cases dates with
  | nil => rfl
  | cons d rest =>
      show (false : Bool) :: dateHeaderFlagsAux (some d.year) rest = _
      rw [dateHeaderFlagsAux_some rest d]
      rfl
